import Mathlib

/-!
Verification development for the Weave markdown preview renderer
(`src/preview/markdownItPlugin.ts`, `src/preview/weaveRenderer.ts`,
`src/preview/renderers/*.ts`).

The TypeScript sources are shallowly embedded: each definition below mirrors a
source function of the same name.  Mutable `RenderContext` state is threaded
explicitly (functions return `String × RenderContext`); JavaScript `Set` and
`Map` objects are modelled as insertion-ordered lists; the external markdown
parsing stack (`@weave-md/parse`, `mdast-util-to-hast`, `hast-util-to-html`,
KaTeX) and the workspace index store are external collaborators and are
modelled as parameters of a `Host` structure.  All string scanning helpers are
written with structural recursion (a fuel argument bounded by the string
length where needed) so every definition evaluates inside the kernel.
-/

set_option maxRecDepth 200000

namespace Weave

/-- Character class of the JavaScript `\s` regex class / `String.prototype.trim`,
restricted to the ASCII characters that occur in this development. -/
def isJsSpace (c : Char) : Bool :=
  c = ' ' || c = '\t' || c = '\n' || c = '\r' || c = '\x0b' || c = '\x0c'

/-- JavaScript `String.prototype.trim` on the character-list view. -/
def jsTrimList (s : List Char) : List Char :=
  ((s.dropWhile isJsSpace).reverse.dropWhile isJsSpace).reverse

/-- JavaScript `String.prototype.trim`. -/
def jsTrim (s : String) : String :=
  String.mk (jsTrimList s.toList)

/-- JavaScript `s.slice(0, n)` (`String.take`, kernel-computable). -/
def strTake (s : String) (n : Nat) : String :=
  String.mk (s.toList.take n)

/-- Decides whether `needle` occurs as a contiguous substring of `hay`
(the test a JavaScript regex made of literal characters performs). -/
def containsSub (needle : List Char) : List Char → Bool
  | [] => needle.isEmpty
  | c :: cs => needle.isPrefixOf (c :: cs) || containsSub needle cs

/-- String-level wrapper of `containsSub`, i.e. JavaScript `hay.includes(pat)`. -/
def strContains (hay pat : String) : Bool :=
  containsSub pat.toList hay.toList

/-- Splits a character list at the first occurrence of `sep`;
`splitOnChar sep s` returns the pieces of JavaScript `s.split(sep)`. -/
def splitOnChar (sep : Char) : List Char → List (List Char)
  | [] => [[]]
  | c :: cs =>
    match splitOnChar sep cs with
    | [] => [[]]
    | p :: ps => if c = sep then [] :: p :: ps else (c :: p) :: ps

/-- `escapeHtml` from `src/preview/utils.ts` (also duplicated in
`markdownItPlugin.ts` and `weaveRenderer.ts`): the five sequential global
replaces.  Because `&` is replaced first and no later pattern occurs in any
replacement text, the sequential replaces act independently on each source
character, which is how they are rendered here. -/
def escapeHtmlChar (c : Char) : List Char :=
  if c = '&' then "&amp;".toList
  else if c = '<' then "&lt;".toList
  else if c = '>' then "&gt;".toList
  else if c = '"' then "&quot;".toList
  else if c = '\'' then "&#39;".toList
  else [c]

/-- HTML special-character escaping, `escapeHtml` in the sources. -/
def escapeHtml (s : String) : String :=
  String.mk (s.toList.flatMap escapeHtmlChar)

/-- One global single-character replace, `s.replace(/p/g, rep)`. -/
def replaceChar (p : Char) (rep : List Char) (s : List Char) : List Char :=
  s.flatMap (fun c => if c = p then rep else [c])

/-- `escapeHtml` written exactly as the source chains it: five sequential
global replaces, `&` first.  `escapeHtml_eq_seq` below proves this equal to
the one-pass `escapeHtml` used throughout. -/
def escapeHtmlSeq (s : String) : String :=
  String.mk
    (replaceChar '\'' "&#39;".toList
      (replaceChar '"' "&quot;".toList
        (replaceChar '>' "&gt;".toList
          (replaceChar '<' "&lt;".toList
            (replaceChar '&' "&amp;".toList s.toList)))))

/-- Display modes, the `DisplayType` union of `@weave-md/core`
(see `src/util/displayTypes.ts`). -/
inductive DisplayType where
  | inline | stretch | overlay | footnote | sidenote | margin | panel
deriving DecidableEq, Repr

/-- Parsed `node:` URL (`ParsedNodeUrl` in `src/preview/types.ts`). -/
structure ParsedNodeUrl where
  id : String
  display : Option DisplayType := none
  exportHint : Option String := none
  unknownParams : List (String × String) := []
deriving DecidableEq, Repr

/-- Content unit returned by the index store (`Section` in
`src/validation/indexStore.ts`); only the fields the renderer reads. -/
structure ContentSection where
  id : String
  title : String
  fullMarkdown : String
deriving DecidableEq, Repr

/-- Preview configuration (`PreviewConfig` in `src/preview/types.ts`). -/
structure PreviewConfig where
  enablePreviewEnhancements : Bool := true
  maxPreviewDepth : Nat := 3
  maxExpandedCharsPerRef : Nat := 12000
  maxExpandedRefsPerDoc : Nat := 50
  showPreviewLabels : Bool := true
  sidenoteMinWidth : Nat := 0
deriving DecidableEq, Repr

/-- Footnote entry (`FootnoteEntry` in `src/preview/types.ts`). -/
structure FootnoteEntry where
  id : String
  num : Nat
  title : String
  content : String
  refIds : List String
deriving DecidableEq, Repr

/-- Deferred inline content entry (`InlineContentEntry` in
`src/preview/types.ts`). -/
structure InlineContentEntry where
  targetId : String
  content : String
deriving DecidableEq, Repr

/-- Per-render mutable state (`RenderContext` in `src/preview/types.ts`).
`expandedIds` models the JavaScript `Set<string>` in insertion order and
`footnotes` models the insertion-ordered `Map<string, FootnoteEntry>`. -/
structure RenderContext where
  expandedRefs : Nat
  expandedIds : List String
  footnoteCount : Nat
  sidenoteCount : Nat
  config : PreviewConfig
  footnotes : List FootnoteEntry
  footnoteRefCount : Nat
  inlineContents : List InlineContentEntry
deriving DecidableEq, Repr

/-- `createRenderContext` from `src/preview/utils.ts`; the configuration is the
value `getPreviewConfig()` reads from the host settings, taken as a parameter. -/
def createRenderContext (cfg : PreviewConfig) : RenderContext :=
  { expandedRefs := 0
    expandedIds := []
    footnoteCount := 0
    sidenoteCount := 0
    config := cfg
    footnotes := []
    footnoteRefCount := 0
    inlineContents := [] }

/-- JavaScript `Set.prototype.add` on the insertion-ordered list model. -/
def setAdd (s : List String) (x : String) : List String :=
  if x ∈ s then s else s ++ [x]

/-- JavaScript `Set.prototype.delete` on the insertion-ordered list model. -/
def setDelete (s : List String) (x : String) : List String :=
  s.filter (· ≠ x)

/-- JavaScript `Map.prototype.get` keyed by `FootnoteEntry.id`. -/
def footnotesGet (fns : List FootnoteEntry) (targetId : String) : Option FootnoteEntry :=
  fns.find? (fun e => e.id = targetId)

/-- Appends `refId` to the `refIds` list of the entry keyed `targetId`
(the effect of `entry.refIds.push(refId)` on the shared map entry). -/
def footnotesPushRef (fns : List FootnoteEntry) (targetId refId : String) :
    List FootnoteEntry :=
  fns.map (fun e => if e.id = targetId then { e with refIds := e.refIds ++ [refId] } else e)

/-- External collaborators of the renderer: the read-only index store lookup
(`getIndexStore().getSectionById`) and the markdown rendering pipeline inside
`renderWeaveContent`'s `try` block (`parseToMdast` → mdast transform → `toHast`
→ `toHtml`), which yields the HTML string before truncation or raises. -/
structure Host where
  getSectionById : String → Option ContentSection
  coreRender : String → Except String String

/-- Inline error fragment of `renderWeaveContent`'s `catch` branch
(`src/preview/weaveRenderer.ts`, line 453). -/
def errorRenderingDiv : String := "<div class=\"weave-error\">Error rendering content</div>"

/-- Error fragment for sections without YAML frontmatter
(`renderSectionBody` in `src/preview/weaveRenderer.ts`, line 464). -/
def missingFrontmatterDiv : String :=
  "<div class=\"weave-error\">Error: Section is missing YAML frontmatter</div>"

/-- `renderWeaveContent` from `src/preview/weaveRenderer.ts`: runs the external
parse pipeline (`Host.coreRender`), truncating the resulting HTML at
`options.maxChars` (a JavaScript truthiness check, so `0` disables it) and
returning the inline error fragment when the pipeline raises.  The
`renderMath` and `stripNodeLinks` options are absorbed into `coreRender`
(`transformHast` reads only `renderMath`, and every call site of interest
passes `renderMath: true`). -/
def renderWeaveContent (host : Host) (markdown : String) (maxChars : Nat) : String :=
  match host.coreRender markdown with
  | .error _ => errorRenderingDiv
  | .ok html =>
    if maxChars ≠ 0 ∧ html.length > maxChars then strTake html maxChars ++ "..."
    else html

/-- `renderSectionBody` from `src/preview/weaveRenderer.ts` (imported as
`renderSectionBodyHtml` by the plugin): requires YAML frontmatter
(`fullMarkdown.trimStart().startsWith('---')`), else an error fragment. -/
def weaveRenderSectionBody (host : Host) (fullMarkdown : String) (maxChars : Nat) : String :=
  if !("---".toList.isPrefixOf (fullMarkdown.toList.dropWhile isJsSpace)) then
    missingFrontmatterDiv
  else renderWeaveContent host fullMarkdown maxChars

/-- Truncation marker appended by the plugin-level `renderSectionBody`
(`src/preview/markdownItPlugin.ts`, line 178). -/
def truncatedSpan : String := "<span class=\"weave-truncated\">(Content truncated)</span>"

/-- `renderSectionBody` from `src/preview/markdownItPlugin.ts` (lines 166-182):
renders `section.fullMarkdown` through the Weave renderer with
`maxChars := config.maxExpandedCharsPerRef` and appends the
`(Content truncated)` marker when the raw markdown length exceeds that limit.
The `depth` parameter is accepted but, as in the source, unused; the
`stripNodeLinks` flag is accepted and forwarded in the source's options, where
the current `weaveRenderer` pipeline never reads it (`transformHast` uses only
`renderMath`), so it does not reach `coreRender` here. -/
def renderSectionBody (host : Host) (sec : ContentSection) (depth : Nat)
    (ctx : RenderContext) (stripNodeLinks : Bool := false) : String :=
  let fullDoc := sec.fullMarkdown
  let html := weaveRenderSectionBody host fullDoc ctx.config.maxExpandedCharsPerRef
  if fullDoc.length > ctx.config.maxExpandedCharsPerRef then html ++ truncatedSpan
  else html

/-- Lazy-dot capture for the patterns `open(.*?)close` of `renderBasicMarkdown`:
the shortest newline-free prefix followed by the closing delimiter, returned
with the remainder after the delimiter (JavaScript `.` matches neither `\n`
nor `\r`). -/
def findCloser (close : List Char) : List Char → Option (List Char × List Char)
  | [] => none
  | c :: cs =>
    if close.isPrefixOf (c :: cs) then some ([], (c :: cs).drop close.length)
    else if c = '\n' ∨ c = '\r' then none
    else
      match findCloser close cs with
      | some (cap, rest) => some (c :: cap, rest)
      | none => none

/-- One global-replace pass for a pattern `open(.*?)close` with replacement
`pre$1post`, as in `p.replace(/\*\*(.*?)\*\*/g, '<strong>$1</strong>')`.  The
fuel argument starts at the input length; the scan consumes at least one
character per step, so the fuel is never exhausted. -/
def replaceDelimGo (opn close pre post : List Char) : Nat → List Char → List Char
  | 0, s => s
  | _ + 1, [] => []
  | n + 1, c :: cs =>
    if opn.isPrefixOf (c :: cs) then
      match findCloser close ((c :: cs).drop opn.length) with
      | some (cap, rest) => pre ++ cap ++ post ++ replaceDelimGo opn close pre post n rest
      | none => c :: replaceDelimGo opn close pre post n cs
    else c :: replaceDelimGo opn close pre post n cs

/-- Wrapper of `replaceDelimGo` supplying the fuel. -/
def replaceDelim (opn close pre post : List Char) (s : List Char) : List Char :=
  replaceDelimGo opn close pre post s.length s

/-- Capture for a character class like `([^\]]+)`: the maximal run of
characters different from `stop`; succeeds when the run is nonempty and the
terminating `stop` character is present, returning the capture and the
remainder after `stop`. -/
def takeUntilChar (stop : Char) (s : List Char) : Option (List Char × List Char) :=
  let cap := s.takeWhile (· ≠ stop)
  match s.drop cap.length with
  | [] => none
  | _ :: rs => if cap.isEmpty then none else some (cap, rs)

/-- Global replace of `/\[([^\]]+)\]\(([^)]+)\)/g` by `<a href="$2">$1</a>`
(the markdown-link pass of `renderBasicMarkdown`). -/
def replaceLinkGo : Nat → List Char → List Char
  | 0, s => s
  | _ + 1, [] => []
  | n + 1, c :: cs =>
    if c = '[' then
      match takeUntilChar ']' cs with
      | some (txt, afterBracket) =>
        match afterBracket with
        | '(' :: afterParen =>
          match takeUntilChar ')' afterParen with
          | some (url, rest) =>
            "<a href=\"".toList ++ url ++ "\">".toList ++ txt ++ "</a>".toList
              ++ replaceLinkGo n rest
          | none => c :: replaceLinkGo n cs
        | _ => c :: replaceLinkGo n cs
      | none => c :: replaceLinkGo n cs
    else c :: replaceLinkGo n cs

/-- Prefix of a whitespace run up to and including its last newline. -/
def upToLastNewline (ws : List Char) : List Char :=
  (ws.reverse.dropWhile (· ≠ '\n')).reverse

/-- Split on the JavaScript regex `/\n\s*\n/` (the paragraph split of
`renderBasicMarkdown`): a newline, a greedy whitespace run that backtracks to
end at its last contained newline, and that final newline. -/
def splitParasGo : Nat → List Char → List Char → List (List Char)
  | 0, acc, s => [acc.reverse ++ s]
  | _ + 1, acc, [] => [acc.reverse]
  | n + 1, acc, c :: cs =>
    if c = '\n' then
      let ws := cs.takeWhile isJsSpace
      if ws.contains '\n' then
        acc.reverse :: splitParasGo n [] (cs.drop (upToLastNewline ws).length)
      else splitParasGo n (c :: acc) cs
    else splitParasGo n (c :: acc) cs

/-- Inline formatting passes applied to one paragraph, in source order:
bold, italic, code span, markdown link. -/
def basicInlinePasses (p : List Char) : List Char :=
  let p := replaceDelim "**".toList "**".toList "<strong>".toList "</strong>".toList p
  let p := replaceDelim "*".toList "*".toList "<em>".toList "</em>".toList p
  let p := replaceDelim "`".toList "`".toList "<code>".toList "</code>".toList p
  replaceLinkGo p.length p

/-- Final unwrap `html.replace(/^<p>(.*?)<\/p>$/, '$1')` of
`renderBasicMarkdown`: strips the tags when the whole string is a single
`<p>…</p>` whose body contains no newline. -/
def unwrapSingleP (html : String) : String :=
  let l := html.toList
  if "<p>".toList.isPrefixOf l ∧ "</p>".toList.isSuffixOf l ∧ 7 ≤ l.length then
    let mid := (l.drop 3).take (l.length - 7)
    if mid.contains '\n' ∨ mid.contains '\r' then html else String.mk mid
  else html

/-- `renderBasicMarkdown` from `src/preview/utils.ts` (lines 116-134): the
simple markdown-to-HTML conversion used for sidenote and margin-note content. -/
def renderBasicMarkdown (content : String) : String :=
  let cl := content.toList
  let paragraphs := (splitParasGo cl.length [] cl).filter
    (fun p => !(jsTrimList p).isEmpty)
  let html := String.join (paragraphs.map (fun p =>
    "<p>" ++ String.mk (jsTrimList (basicInlinePasses p)) ++ "</p>"))
  if paragraphs.length = 1 ∧ ¬(strContains content "\n\n" = true) then unwrapSingleP html
  else html

/-- Concatenation of a list of strings (JavaScript `array.join('')`). -/
def concatAll : List String → String
  | [] => ""
  | x :: xs => x ++ concatAll xs

/-- Joins strings with a separator (JavaScript `Array.prototype.join`). -/
def joinWith (sep : String) : List String → String
  | [] => ""
  | [x] => x
  | x :: y :: xs => x ++ sep ++ joinWith sep (y :: xs)

/-- `extractContentAfterFrontmatter` from `src/preview/utils.ts`
(lines 139-163): strips a leading YAML frontmatter block delimited by `---`
lines, then trims; returns the trimmed document when no frontmatter is found. -/
def extractContentAfterFrontmatter (fullMarkdown : String) : String :=
  let lines := (splitOnChar '\n' fullMarkdown.toList).map String.mk
  match lines with
  | [] => jsTrim fullMarkdown
  | first :: rest =>
    if jsTrim first = "---" then
      match rest.findIdx? (fun l => jsTrim l == "---") with
      | some j => jsTrim (joinWith "\n" (rest.drop (j + 1)))
      | none => jsTrim fullMarkdown
    else jsTrim fullMarkdown

/-- `isAnchorOnly` from `src/preview/utils.ts`:
`!linkText || !linkText.trim() || linkText.trim() === ''`. -/
def isAnchorOnly (linkText : String) : Bool :=
  linkText == "" || jsTrim linkText == "" || jsTrim linkText == ""

/-- `ICON_PLUS` SVG constant from `src/preview/utils.ts`. -/
def ICON_PLUS : String := "<svg xmlns=\"http://www.w3.org/2000/svg\" fill=\"none\" viewBox=\"0 0 24 24\" stroke-width=\"1.5\" stroke=\"currentColor\" class=\"weave-icon weave-icon-plus\"><path stroke-linecap=\"round\" stroke-linejoin=\"round\" d=\"M12 9v6m3-3H9m12 0a9 9 0 1 1-18 0 9 9 0 0 1 18 0Z\"></path></svg>"

/-- `ICON_MINUS` SVG constant from `src/preview/utils.ts`. -/
def ICON_MINUS : String := "<svg xmlns=\"http://www.w3.org/2000/svg\" fill=\"none\" viewBox=\"0 0 24 24\" stroke-width=\"1.5\" stroke=\"currentColor\" class=\"weave-icon weave-icon-minus\"><path stroke-linecap=\"round\" stroke-linejoin=\"round\" d=\"M15 12H9m12 0a9 9 0 1 1-18 0 9 9 0 0 1 18 0Z\"></path></svg>"

/-- `ICON_INFO` SVG constant from `src/preview/utils.ts`. -/
def ICON_INFO : String := "<svg xmlns=\"http://www.w3.org/2000/svg\" fill=\"none\" viewBox=\"0 0 24 24\" stroke-width=\"1.5\" stroke=\"currentColor\" class=\"weave-icon\"><path stroke-linecap=\"round\" stroke-linejoin=\"round\" d=\"m11.25 11.25.041-.02a.75.75 0 0 1 1.063.852l-.708 2.836a.75.75 0 0 0 1.063.853l.041-.021M21 12a9 9 0 1 1-18 0 9 9 0 0 1 18 0Zm-9-3.75h.008v.008H12V8.25Z\"></path></svg>"

/-- Missing-target fragment of `renderNodeLink` (the `!section` branch). -/
def missingFragment (targetId linkText : String) : String :=
  "<span class=\"weave-link weave-missing\" data-weave=\"1\" data-target=\"" ++ targetId
    ++ "\">\n      <a href=\"#\">" ++ escapeHtml linkText
    ++ "</a>\n      <span class=\"weave-badge weave-badge-missing\" title=\"Section not found\">?</span>\n    </span>"

/-- Cycle fragment of `renderNodeLink` (the `expandedIds.has` branch). -/
def cycleFragment (targetId linkText filePath : String) : String :=
  "<span class=\"weave-link weave-cycle\" data-weave=\"1\" data-target=\"" ++ targetId
    ++ "\">\n      <a href=\"" ++ escapeHtml filePath ++ "\">" ++ escapeHtml linkText
    ++ "</a>\n      <span class=\"weave-badge weave-badge-cycle\" title=\"Already expanded above\">↑</span>\n    </span>"

/-- Depth-limit fragment of `renderNodeLink` (the `depth > maxPreviewDepth`
branch). -/
def depthLimitFragment (targetId linkText filePath : String) : String :=
  "<span class=\"weave-link weave-depth-limit\" data-weave=\"1\" data-target=\"" ++ targetId
    ++ "\">\n      <a href=\"" ++ escapeHtml filePath ++ "\">" ++ escapeHtml linkText
    ++ "</a>\n      <span class=\"weave-badge weave-badge-depth\" title=\"Max depth reached\">…</span>\n    </span>"

/-- Reference-limit fragment of `renderNodeLink` (the
`expandedRefs >= maxExpandedRefsPerDoc` branch). -/
def refLimitFragment (targetId linkText filePath : String) : String :=
  "<span class=\"weave-link weave-ref-limit\" data-weave=\"1\" data-target=\"" ++ targetId
    ++ "\">\n      <a href=\"" ++ escapeHtml filePath ++ "\">" ++ escapeHtml linkText
    ++ "</a>\n      <span class=\"weave-badge weave-badge-limit\" title=\"Max refs reached\">…</span>\n    </span>"

/-- Needle `data-nested="1"` of the nested-trigger scan. -/
def nestedNeedle : List Char := "data-nested=\"1\"".toList

/-- Splits a character list at its first `>`: the run before it and the rest
after. -/
def splitAtGt : List Char → Option (List Char × List Char)
  | [] => none
  | c :: cs =>
    if c = '>' then some ([], cs)
    else
      match splitAtGt cs with
      | some (run, rest) => some (c :: run, rest)
      | none => none

/-- Matches of the global regex `/<span[^>]*data-nested="1"[^>]*>/` of
`renderers/nestedTemplates.ts`: a match starting at a position is a literal
`<span`, the (greedy, `>`-free) attribute run containing `data-nested="1"`,
and the closing `>`; scanning resumes after each match, and advances one
character after a failed attempt.  Fuel starts at the input length. -/
def scanSpansGo : Nat → List Char → List (List Char)
  | 0, _ => []
  | _ + 1, [] => []
  | n + 1, c :: cs =>
    if "<span".toList.isPrefixOf (c :: cs) then
      match splitAtGt ((c :: cs).drop 5) with
      | none => []
      | some (run, rest) =>
        if containsSub nestedNeedle run then
          ("<span".toList ++ run ++ ['>']) :: scanSpansGo n rest
        else scanSpansGo n cs
    else scanSpansGo n cs

/-- Wrapper of `scanSpansGo` supplying the fuel. -/
def scanNestedSpans (content : List Char) : List (List Char) :=
  scanSpansGo content.length content

/-- First match of `/attr="([^"]+)"/` in a tag (`([^"]*)` when `allowEmpty`):
returns the captured attribute value.  `attr` includes the opening quote. -/
def extractAttrGo (attr : List Char) (allowEmpty : Bool) : List Char → Option String
  | [] => none
  | c :: cs =>
    if attr.isPrefixOf (c :: cs) then
      let after := (c :: cs).drop attr.length
      let cap := after.takeWhile (· ≠ '"')
      if cap.length < after.length ∧ (allowEmpty ∨ ¬cap.isEmpty) then some (String.mk cap)
      else extractAttrGo attr allowEmpty cs
    else extractAttrGo attr allowEmpty cs

/-- Template class chosen from a matched trigger span
(`renderers/nestedTemplates.ts`, lines 28-31 and 59): `stretch` triggers get
the stretch template class, everything else (including a falsy
`data-display`) the overlay one. -/
def templateClassFor (spanTag : List Char) : String :=
  let isStretch := containsSub "weave-stretch-trigger".toList spanTag
  let displayType :=
    if isStretch then "stretch"
    else
      match extractAttrGo "data-display=\"".toList true spanTag with
      | some d => if d ≠ "" then d else "overlay"
      | none => "overlay"
  if displayType = "stretch" then "weave-stretch-content-template"
  else "weave-overlay-content-template"

/-- Loop body of `getNestedLinkTemplates`
(`src/preview/renderers/nestedTemplates.ts`, lines 20-62) over the matched
trigger spans; `deeper` is the recursive call at `depth + 1`, instantiated by
`nestedTempl` with one less fuel. -/
def nestedLoop (host : Host)
    (deeper : List Char → RenderContext → String × RenderContext) (depth : Nat) :
    List (List Char) → List String → RenderContext → String → String × RenderContext
  | [], _, ctx, acc => (acc, ctx)
  | spanTag :: rest, processed, ctx, acc =>
    match extractAttrGo "data-target=\"".toList false spanTag with
    | none => nestedLoop host deeper depth rest processed ctx acc
    | some nestedId =>
      if processed.contains nestedId || ctx.expandedIds.contains nestedId then
        nestedLoop host deeper depth rest processed ctx acc
      else
        let processed := setAdd processed nestedId
        if depth > ctx.config.maxPreviewDepth then
          nestedLoop host deeper depth rest processed ctx acc
        else
          match host.getSectionById nestedId with
          | none => nestedLoop host deeper depth rest processed ctx acc
          | some sec =>
            let ctx := { ctx with expandedIds := setAdd ctx.expandedIds nestedId }
            let nestedContent :=
              weaveRenderSectionBody host sec.fullMarkdown ctx.config.maxExpandedCharsPerRef
            let (deeperTemplates, ctx) := deeper nestedContent.toList ctx
            let ctx := { ctx with expandedIds := setDelete ctx.expandedIds nestedId }
            let tmpl := "<template class=\"" ++ templateClassFor spanTag ++ "\" data-for=\""
              ++ nestedId ++ "\">" ++ nestedContent ++ "</template>"
            nestedLoop host deeper depth rest processed ctx (acc ++ tmpl ++ deeperTemplates)

/-- `getNestedLinkTemplates` from `src/preview/renderers/nestedTemplates.ts`
on an explicit depth-budget fuel, `fuel = maxPreviewDepth + 1 - depth`.  With
zero fuel the guard `depth > maxPreviewDepth` holds and the loop only
accumulates ids into its local `processedIds` set, emitting nothing and
leaving the context untouched, so `("", ctx)` is its exact result (certified
by `nestedLoop_depth_exceeded` below). -/
def nestedTempl (host : Host) : Nat → Nat → List Char → RenderContext → String × RenderContext
  | 0, _, _, ctx => ("", ctx)
  | n + 1, depth, content, ctx =>
    nestedLoop host (fun c x => nestedTempl host n (depth + 1) c x) depth
      (scanNestedSpans content) [] ctx ""

/-- `getNestedLinkTemplates(content, depth, ctx)`: the fuel is the remaining
depth budget. -/
def getNestedLinkTemplates (host : Host) (content : String) (depth : Nat)
    (ctx : RenderContext) : String × RenderContext :=
  nestedTempl host (ctx.config.maxPreviewDepth + 1 - depth) depth content.toList ctx

/-- `renderInlineExpansion` from `src/preview/renderers/inlineRenderer.ts`. -/
def renderInlineExpansion (host : Host) (targetId linkText title content filePath : String)
    (ctx : RenderContext) (depth : Nat) : String × RenderContext :=
  let contentTemplate := "<template class=\"weave-inline-content-template\" data-for=\""
    ++ targetId ++ "\">" ++ content ++ "</template>"
  let (nestedTemplates, ctx) := getNestedLinkTemplates host content (depth + 1) ctx
  if isAnchorOnly linkText then
    ("<span class=\"weave-inline-anchor\" data-weave=\"1\" data-target=\"" ++ targetId
      ++ "\" tabindex=\"0\" role=\"button\" title=\"Expand " ++ escapeHtml title ++ "\">"
      ++ ICON_PLUS ++ ICON_MINUS ++ "</span>" ++ contentTemplate ++ nestedTemplates, ctx)
  else
    ("<span class=\"weave-inline-trigger\" data-weave=\"1\" data-target=\"" ++ targetId
      ++ "\" tabindex=\"0\" role=\"button\" aria-expanded=\"false\">" ++ escapeHtml linkText
      ++ "</span>" ++ contentTemplate ++ nestedTemplates, ctx)

/-- `renderStretchExpansion` from `src/preview/renderers/stretchRenderer.ts`. -/
def renderStretchExpansion (host : Host) (targetId linkText title content filePath : String)
    (ctx : RenderContext) (depth : Nat) : String × RenderContext :=
  let contentTemplate := "<template class=\"weave-stretch-content-template\" data-for=\""
    ++ targetId ++ "\">" ++ content ++ "</template>"
  let (nestedTemplates, ctx) := getNestedLinkTemplates host content (depth + 1) ctx
  if isAnchorOnly linkText then
    ("<span class=\"weave-stretch-anchor\" data-weave=\"1\" data-target=\"" ++ targetId
      ++ "\" tabindex=\"0\" role=\"button\" title=\"Expand " ++ escapeHtml title ++ "\">"
      ++ ICON_PLUS ++ ICON_MINUS ++ "</span>" ++ contentTemplate ++ nestedTemplates, ctx)
  else
    ("<span class=\"weave-stretch-trigger\" data-weave=\"1\" data-target=\"" ++ targetId
      ++ "\" tabindex=\"0\" role=\"button\" aria-expanded=\"false\">" ++ escapeHtml linkText
      ++ "</span>" ++ contentTemplate ++ nestedTemplates, ctx)

/-- `renderOverlayExpansion` from `src/preview/renderers/overlayRenderer.ts`. -/
def renderOverlayExpansion (host : Host) (targetId linkText title content filePath : String)
    (ctx : RenderContext) (depth : Nat) : String × RenderContext :=
  let contentTemplate := "<template class=\"weave-overlay-content-template\" data-for=\""
    ++ targetId ++ "\">" ++ content ++ "</template>"
  let (nestedTemplates, ctx) := getNestedLinkTemplates host content (depth + 1) ctx
  if isAnchorOnly linkText then
    ("<span class=\"weave-overlay-anchor\" data-weave=\"1\" data-target=\"" ++ targetId
      ++ "\" tabindex=\"0\" role=\"button\" data-display=\"overlay\" title=\"View "
      ++ escapeHtml title ++ "\">" ++ ICON_INFO ++ "</span>" ++ contentTemplate
      ++ nestedTemplates, ctx)
  else
    ("<span class=\"weave-node-link\" data-weave=\"1\" data-target=\"" ++ targetId
      ++ "\" tabindex=\"0\" role=\"button\" data-display=\"overlay\">" ++ escapeHtml linkText
      ++ "</span>" ++ contentTemplate ++ nestedTemplates, ctx)

/-- `renderPanelExpansion` from `src/preview/renderers/panelRenderer.ts`. -/
def renderPanelExpansion (host : Host) (targetId linkText title content filePath : String)
    (ctx : RenderContext) (depth : Nat) : String × RenderContext :=
  let contentTemplate := "<template class=\"weave-panel-content-template\" data-for=\""
    ++ targetId ++ "\">" ++ content ++ "</template>"
  let (nestedTemplates, ctx) := getNestedLinkTemplates host content (depth + 1) ctx
  if isAnchorOnly linkText then
    ("<span class=\"weave-panel-anchor\" data-weave=\"1\" data-target=\"" ++ targetId
      ++ "\" tabindex=\"0\" role=\"button\" title=\"Open panel: " ++ escapeHtml title ++ "\">"
      ++ ICON_INFO ++ "</span>" ++ contentTemplate ++ nestedTemplates, ctx)
  else
    ("<span class=\"weave-panel-trigger\" data-weave=\"1\" data-target=\"" ++ targetId
      ++ "\" tabindex=\"0\" role=\"button\" aria-expanded=\"false\">" ++ escapeHtml linkText
      ++ "</span>" ++ contentTemplate ++ nestedTemplates, ctx)

/-- Reference-anchor id `` `fnref-${ctx.footnoteRefCount}` `` of
`renderFootnoteRef`. -/
def fnRefId (n : Nat) : String := "fnref-" ++ toString n

/-- `renderFootnoteRef` from `src/preview/renderers/footnoteRenderer.ts`
(also `markdownItPlugin.ts` lines 431-463): registers the footnote, assigning
`footnoteCount + 1` on first sight of the target, and appends a fresh
`fnref-N` anchor id to the entry on every call. -/
def renderFootnoteRef (targetId linkText title content : String) (ctx : RenderContext) :
    String × RenderContext :=
  let ctx := { ctx with footnoteRefCount := ctx.footnoteRefCount + 1 }
  let refId := fnRefId ctx.footnoteRefCount
  let (fnNum, ctx) :=
    match footnotesGet ctx.footnotes targetId with
    | some entry => (entry.num, ctx)
    | none =>
      let ctx := { ctx with footnoteCount := ctx.footnoteCount + 1 }
      (ctx.footnoteCount,
        { ctx with footnotes := ctx.footnotes ++
            [({ id := targetId, num := ctx.footnoteCount, title := title,
                content := content, refIds := [] } : FootnoteEntry)] })
  let ctx := { ctx with footnotes := footnotesPushRef ctx.footnotes targetId refId }
  if linkText ≠ "" ∧ jsTrim linkText ≠ "" ∧ jsTrim linkText ≠ " " then
    ("<a href=\"#fn-" ++ toString fnNum ++ "\" id=\"" ++ refId
      ++ "\" class=\"weave-footnote-link\" data-weave=\"1\"><span class=\"weave-footnote-link-text\">"
      ++ escapeHtml linkText ++ "</span><sup>[" ++ toString fnNum ++ "]</sup></a>", ctx)
  else
    ("<sup class=\"weave-footnote-ref\" data-weave=\"1\"><a href=\"#fn-" ++ toString fnNum
      ++ "\" id=\"" ++ refId ++ "\">[" ++ toString fnNum ++ "]</a></sup>", ctx)

/-- One `<li>` of the flushed footnote section; the back-reference link targets
the entry's first reference anchor (`fn.refIds[0] || ''`). -/
def footnoteListItem (fn : FootnoteEntry) : String :=
  "<li id=\"fn-" ++ toString fn.num
    ++ "\" class=\"weave-footnote\"><span class=\"weave-footnote-marker\"><a href=\"#"
    ++ fn.refIds.headD "" ++ "\" class=\"weave-footnote-backref\">[" ++ toString fn.num
    ++ "]</a></span><div class=\"weave-footnote-content\">" ++ fn.content ++ "</div></li>"

/-- Stable insertion into a `num`-sorted list. -/
def insertByNum (e : FootnoteEntry) : List FootnoteEntry → List FootnoteEntry
  | [] => [e]
  | x :: xs => if e.num ≤ x.num then e :: x :: xs else x :: insertByNum e xs

/-- Stable sort by `num` (`Array.from(...).sort((a, b) => a.num - b.num)`). -/
def sortFootnotes : List FootnoteEntry → List FootnoteEntry
  | [] => []
  | x :: xs => insertByNum x (sortFootnotes xs)

/-- The `.map` body of `renderFootnotesSection`: accumulates the list items and
the nested-link templates collected from each footnote's content (at depth 1). -/
def renderFootnotesFold (host : Host) :
    List FootnoteEntry → RenderContext → String → String → String × String × RenderContext
  | [], ctx, items, nested => (items, nested, ctx)
  | fn :: rest, ctx, items, nested =>
    let (tmpl, ctx) := getNestedLinkTemplates host fn.content 1 ctx
    renderFootnotesFold host rest ctx (items ++ footnoteListItem fn) (nested ++ tmpl)

/-- `renderFootnotesSection` from `src/preview/renderers/footnoteRenderer.ts`
(also `markdownItPlugin.ts` lines 468-487): one ordered list with one item per
registered footnote, sorted by assigned number. -/
def renderFootnotesSection (host : Host) (ctx : RenderContext) : String × RenderContext :=
  if ctx.footnotes.length = 0 then ("", ctx)
  else
    let (items, nested, ctx) := renderFootnotesFold host (sortFootnotes ctx.footnotes) ctx "" ""
    ("<hr class=\"weave-footnotes-separator\"><section class=\"weave-footnotes\" data-weave=\"1\"><ol class=\"weave-footnotes-list\">"
      ++ items ++ "</ol></section>" ++ nested, ctx)

/-- `renderSidenote` from `src/preview/renderers/sidenoteRenderer.ts`
(`markdownItPlugin.ts` lines 489-505). -/
def renderSidenote (targetId linkText title content filePath : String) (num : Nat) : String :=
  "<span class=\"weave-sidenote-container\" data-weave=\"1\">\n    <span class=\"weave-sidenote-anchor\" data-target=\""
    ++ targetId ++ "\" tabindex=\"0\" role=\"button\">\n      " ++ escapeHtml linkText
    ++ "<sup class=\"weave-sidenote-number\">[" ++ toString num
    ++ "]</sup>\n    </span>\n    <span class=\"weave-sidenote-body\" data-target=\"" ++ targetId
    ++ "\">\n      <span class=\"weave-sidenote-content\">\n        <span class=\"weave-header\">\n          <span class=\"weave-sidenote-number\">"
    ++ toString num ++ ".</span>\n          <span class=\"weave-title\">" ++ escapeHtml title
    ++ "</span>\n          <a class=\"weave-open-link\" href=\"" ++ escapeHtml filePath
    ++ "\" title=\"Open section\">↗</a>\n        </span>\n        " ++ content
    ++ "\n      </span>\n    </span>\n  </span>"

/-- Anchor span of a margin note, emitted only when the link text is not
anchor-only. -/
def marginAnchorSpan (targetId linkText : String) : String :=
  "<span class=\"weave-margin-note-anchor\" data-target=\"" ++ targetId
    ++ "\" tabindex=\"0\" role=\"button\">" ++ escapeHtml linkText ++ "</span>"

/-- `renderMarginNote` from `src/preview/renderers/marginRenderer.ts`
(`markdownItPlugin.ts` lines 507-521): the inline anchor is omitted when the
link text is anchor-only; the margin-positioned body is always emitted. -/
def renderMarginNote (targetId linkText title content filePath : String) : String :=
  let showAnchor := !isAnchorOnly linkText
  "<span class=\"weave-margin-note-container\" data-weave=\"1\">\n    "
    ++ (if showAnchor then marginAnchorSpan targetId linkText else "")
    ++ "\n    <span class=\"weave-margin-note-body\" data-target=\"" ++ targetId
    ++ "\">\n      <span class=\"weave-margin-note-content\">\n        <span class=\"weave-header\">\n          <span class=\"weave-title\">"
    ++ escapeHtml title ++ "</span>\n          <a class=\"weave-open-link\" href=\""
    ++ escapeHtml filePath ++ "\" title=\"Open section\">↗</a>\n        </span>\n        "
    ++ content ++ "\n      </span>\n    </span>\n  </span>"

/-- `renderNodeLink` from `src/preview/markdownItPlugin.ts` (lines 247-331,
identically restated in the modular plugin): the five-way resolution of a
parsed `node:` reference, followed by dispatch on the display mode
(default `inline`). -/
def renderNodeLink (host : Host) (parsed : ParsedNodeUrl) (linkText : String)
    (sec : Option ContentSection) (depth : Nat) (ctx : RenderContext) :
    String × RenderContext :=
  let display := parsed.display.getD .inline
  let targetId := escapeHtml parsed.id
  match sec with
  | none => (missingFragment targetId linkText, ctx)
  | some s =>
    let sectionTitle := if s.title = "" then s.id else s.title
    let filePath := "#" ++ targetId
    if parsed.id ∈ ctx.expandedIds then
      (cycleFragment targetId linkText filePath, ctx)
    else if depth > ctx.config.maxPreviewDepth then
      (depthLimitFragment targetId linkText filePath, ctx)
    else if ctx.expandedRefs ≥ ctx.config.maxExpandedRefsPerDoc then
      (refLimitFragment targetId linkText filePath, ctx)
    else
      let ctx := { ctx with expandedRefs := ctx.expandedRefs + 1,
                            expandedIds := setAdd ctx.expandedIds parsed.id }
      let stripNodeLinks := display == DisplayType.inline
      let content := renderSectionBody host s (depth + 1) ctx stripNodeLinks
      let ctx := { ctx with expandedIds := setDelete ctx.expandedIds parsed.id }
      match display with
      | .inline =>
        renderInlineExpansion host targetId linkText sectionTitle content filePath ctx depth
      | .stretch =>
        renderStretchExpansion host targetId linkText sectionTitle content filePath ctx depth
      | .overlay =>
        renderOverlayExpansion host targetId linkText sectionTitle content filePath ctx depth
      | .footnote => renderFootnoteRef targetId linkText sectionTitle content ctx
      | .sidenote =>
        let ctx := { ctx with sidenoteCount := ctx.sidenoteCount + 1 }
        let sidenoteHtml := renderBasicMarkdown (extractContentAfterFrontmatter s.fullMarkdown)
        (renderSidenote targetId linkText sectionTitle sidenoteHtml filePath ctx.sidenoteCount,
          ctx)
      | .margin =>
        let marginHtml := renderBasicMarkdown (extractContentAfterFrontmatter s.fullMarkdown)
        (renderMarginNote targetId linkText sectionTitle marginHtml filePath, ctx)
      | .panel =>
        renderPanelExpansion host targetId linkText sectionTitle content filePath ctx depth

/-- Inline token groups as the plugin's renderer rules see them: default text
tokens (escaped by the fallback text rule), tokens rendered by other
(external) rules, and a recognized `node:` link with its collected link text
(`link_open` … `link_close`). -/
inductive Tok where
  | text (content : String)
  | other (html : String)
  | nodeLink (parsed : ParsedNodeUrl) (linkText : String)

/-- Renders one token group: the `link_close` rule calls
`renderNodeLink(parsed, linkText || parsed.id, getSectionById(parsed.id), 0, ctx)`. -/
def renderTok (host : Host) (ctx : RenderContext) : Tok → String × RenderContext
  | .text c => (escapeHtml c, ctx)
  | .other h => (h, ctx)
  | .nodeLink parsed linkText =>
    renderNodeLink host parsed (if linkText = "" then parsed.id else linkText)
      (host.getSectionById parsed.id) 0 ctx

/-- Renders a token stream left to right, threading the render context. -/
def renderTokens (host : Host) : List Tok → RenderContext → String × RenderContext
  | [], ctx => ("", ctx)
  | t :: ts, ctx =>
    let (h, ctx') := renderTok host ctx t
    let (rest, ctx'') := renderTokens host ts ctx'
    (h ++ rest, ctx'')

/-- `renderDeferredContent` from `src/preview/markdownItPlugin.ts`
(lines 702-714). -/
def renderDeferredContent (ctx : RenderContext) : String :=
  if ctx.inlineContents.length = 0 then ""
  else
    "<div class=\"weave-deferred-content\" style=\"display:none;\">"
      ++ String.join (ctx.inlineContents.map (fun entry =>
        "<div class=\"weave-inline-content\" data-for=\"" ++ entry.targetId ++ "\">"
          ++ entry.content ++ "</div><div class=\"weave-overlay-content\" data-for=\""
          ++ entry.targetId ++ "\"><div class=\"weave-overlay-body\">" ++ entry.content
          ++ "</div></div>"))
      ++ "</div>"

/-- Mutable `env` object threaded through markdown-it; the wrapped `md.render`
stores its context in `env.weaveContext`. -/
structure WeaveEnv where
  weaveContext : Option RenderContext := none
deriving DecidableEq

/-- The wrapped `md.render` from `createWeavePlugin`
(`src/preview/markdownItPlugin.ts`, lines 654-676): unconditionally installs a
fresh context in the env (`renderEnv.weaveContext = createRenderContext()`),
renders the token stream, then appends the deferred content block and the
footnote section when nonempty.  Returns the output and the mutated env. -/
def mdRenderCall (host : Host) (cfg : PreviewConfig) (toks : List Tok) (env : WeaveEnv) :
    String × WeaveEnv :=
  let ctx0 := createRenderContext cfg
  let (html, ctx1) := renderTokens host toks ctx0
  let html := if 0 < ctx1.inlineContents.length then html ++ renderDeferredContent ctx1 else html
  let (out, ctx2) :=
    if 0 < ctx1.footnotes.length then
      let (fh, c) := renderFootnotesSection host ctx1
      (html ++ fh, c)
    else (html, ctx1)
  (out, { weaveContext := some ctx2 })

/-- Demo section `A` of a three-deep reference chain `A → B → C`. -/
def secA : ContentSection := ⟨"A", "Atitle", "---\nid: A\n---\nA body"⟩

/-- Demo section `B` (empty title, so its id is used as display title). -/
def secB : ContentSection := ⟨"B", "", "---\nid: B\n---\nB body"⟩

/-- Demo section `C`, the deepest target of the chain. -/
def secC : ContentSection := ⟨"C", "Ctitle", "---\nid: C\n---\nC body"⟩

/-- Rendered HTML of `secA`'s body as the external pipeline produces it: the
nested reference to `B` appears as an inert trigger span carrying
`data-nested="1"`, the exact shape emitted for `node:` links by
`transformHast` (`src/preview/weaveRenderer.ts`, lines 296-303). -/
def htmlA : String := "<p>A text <span class=\"weave-node-link\" data-weave=\"1\" data-target=\"B\" data-nested=\"1\" tabindex=\"0\" role=\"button\" data-display=\"overlay\">b</span></p>"

/-- Rendered HTML of `secB`'s body, with an inert nested trigger for `C`. -/
def htmlB : String := "<p>B text <span class=\"weave-node-link\" data-weave=\"1\" data-target=\"C\" data-nested=\"1\" tabindex=\"0\" role=\"button\" data-display=\"overlay\">c</span></p>"

/-- Rendered HTML of `secC`'s body (no further references). -/
def htmlC : String := "<p>CCONTENT</p>"

/-- Demo host: an index store holding the three chained sections and a
pipeline table mapping each section source to its rendered body. -/
def hostDemo : Host :=
  { getSectionById := fun id =>
      if id = "A" then some secA
      else if id = "B" then some secB
      else if id = "C" then some secC
      else none
    coreRender := fun md =>
      if md = secA.fullMarkdown then .ok htmlA
      else if md = secB.fullMarkdown then .ok htmlB
      else if md = secC.fullMarkdown then .ok htmlC
      else .error "parse error" }

/-- Configuration with a preview depth budget of 1. -/
def cfgDepth1 : PreviewConfig := { maxPreviewDepth := 1 }

/-- Configuration with a preview depth budget of 2. -/
def cfgDepth2 : PreviewConfig := { maxPreviewDepth := 2 }

/-- Configuration with a document budget of a single expanded reference. -/
def cfgBudget1 : PreviewConfig := { maxPreviewDepth := 2, maxExpandedRefsPerDoc := 1 }

/-- Section whose `fullMarkdown` (12 characters) lacks YAML frontmatter and
exceeds a 10-character per-reference limit. -/
def secNoFrontmatter : ContentSection := ⟨"t", "T", "aaaaaaaaaaaa"⟩

/-- Configuration with `maxExpandedCharsPerRef = 10`. -/
def cfgChars10 : PreviewConfig := { maxExpandedCharsPerRef := 10 }

/-- Section with frontmatter whose raw length (15 characters) is under a
20-character limit even though its rendered HTML is wider. -/
def secSmallRaw : ContentSection := ⟨"u", "U", "---\nt: x\n---\nhi"⟩

/-- Rendered HTML of `secSmallRaw` (33 characters, over the 20-character
limit: markup expands the raw text). -/
def htmlWide : String := "<p><em>hi hi hi hi hi hi</em></p>"

/-- Configuration with `maxExpandedCharsPerRef = 20`. -/
def cfgChars20 : PreviewConfig := { maxExpandedCharsPerRef := 20 }

/-- Host for the truncation scenarios. -/
def hostChars : Host :=
  { getSectionById := fun _ => none
    coreRender := fun md => if md = secSmallRaw.fullMarkdown then .ok htmlWide else .ok "" }

/-- Render context with unrelated state set, sharing `cfgChars20`. -/
def ctxDirty : RenderContext :=
  { createRenderContext cfgChars20 with expandedRefs := 7, expandedIds := ["z"] }

/-- Output of rendering a document consisting of one reference to `A` of the
demo chain under a depth budget of 1. -/
def chainOut1 : String :=
  (renderTokens hostDemo [Tok.nodeLink { id := "A" } "lnkA"]
    (createRenderContext cfgDepth1)).1

/-- Output of the same document under a document budget of one expanded
reference and a depth budget of 2. -/
def chainOutBudget : String :=
  (renderTokens hostDemo [Tok.nodeLink { id := "A" } "lnkA"]
    (createRenderContext cfgBudget1)).1

/-- The nested trigger span for `B` inside `htmlA`, as matched by the
template-generation scan. -/
def spanB : List Char :=
  "<span class=\"weave-node-link\" data-weave=\"1\" data-target=\"B\" data-nested=\"1\" tabindex=\"0\" role=\"button\" data-display=\"overlay\">".toList

/-- Section whose body the external pipeline fails to render. -/
def secBad : ContentSection := ⟨"D", "Dtitle", "---\nid: D\n---\nbroken"⟩

/-- Host whose index store knows `secBad` but whose render pipeline raises on
every input. -/
def hostErr : Host :=
  { getSectionById := fun id => if id = "D" then some secBad else none
    coreRender := fun _ => .error "boom" }

theorem setDelete_setAdd (s : List String) (x : String) (hx : x ∉ s) :
    setDelete (setAdd s x) x = s := by
  unfold setAdd setDelete
  rw [if_neg hx, List.filter_append]
  simp only [List.filter_cons, List.filter_nil]
  have : ∀ y ∈ s, decide (y ≠ x) = true := by
    intro y hy
    simp only [ne_eq, decide_eq_true_eq]
    rintro rfl; exact hx hy
  rw [List.filter_eq_self.mpr this]
  simp

theorem replaceChar_append (p : Char) (rep a b : List Char) :
    replaceChar p rep (a ++ b) = replaceChar p rep a ++ replaceChar p rep b := by
  unfold replaceChar
  rw [List.flatMap_append]

/-- The source's five sequential replaces equal the one-pass `escapeHtml`:
`&` is replaced first and no later pattern character occurs in any replacement
string, so the passes act independently on each original character. -/
theorem escapeHtml_eq_seq (s : String) : escapeHtml s = escapeHtmlSeq s := by
  unfold escapeHtml escapeHtmlSeq
  congr 1
  induction s.toList with
  | nil => rfl
  | cons c cs ih =>
    have hstep : ∀ l : List Char, (c :: l).flatMap escapeHtmlChar
        = escapeHtmlChar c ++ l.flatMap escapeHtmlChar := fun l => List.flatMap_cons ..
    rw [hstep]
    show _ = replaceChar '\'' "&#39;".toList (replaceChar '"' "&quot;".toList
      (replaceChar '>' "&gt;".toList (replaceChar '<' "&lt;".toList
        (replaceChar '&' "&amp;".toList ([c] ++ cs)))))
    simp only [replaceChar_append]
    rw [← ih]
    congr 1
    by_cases h1 : c = '&'
    · subst h1; decide
    by_cases h2 : c = '<'
    · subst h2; decide
    by_cases h3 : c = '>'
    · subst h3; decide
    by_cases h4 : c = '"'
    · subst h4; decide
    by_cases h5 : c = '\''
    · subst h5; decide
    simp [escapeHtmlChar, replaceChar, h1, h2, h3, h4, h5]

theorem nestedLoop_state (host : Host)
    (deeper : List Char → RenderContext → String × RenderContext)
    (hd : ∀ c x, (deeper c x).2 = x) (depth : Nat) :
    ∀ (spans : List (List Char)) (processed : List String) (ctx : RenderContext)
      (acc : String),
      (nestedLoop host deeper depth spans processed ctx acc).2 = ctx := by
  intro spans
  induction spans with
  | nil => intro processed ctx acc; rfl
  | cons spanTag rest ih =>
    intro processed ctx acc
    unfold nestedLoop
    cases hattr : extractAttrGo "data-target=\"".toList false spanTag with
    | none => exact ih processed ctx acc
    | some nestedId =>
      simp only
      by_cases hmem : (processed.contains nestedId || ctx.expandedIds.contains nestedId) = true
      · rw [if_pos hmem]; exact ih processed ctx acc
      · rw [if_neg hmem]
        have hnotin : nestedId ∉ ctx.expandedIds := by
          simp only [Bool.or_eq_true, not_or] at hmem
          simpa using hmem.2
        by_cases hdep : depth > ctx.config.maxPreviewDepth
        · rw [if_pos hdep]; exact ih _ ctx acc
        · rw [if_neg hdep]
          cases hsec : host.getSectionById nestedId with
          | none => exact ih _ ctx acc
          | some sec =>
            simp only
            rw [show deeper
                (weaveRenderSectionBody host sec.fullMarkdown
                  ({ ctx with expandedIds := setAdd ctx.expandedIds nestedId } :
                    RenderContext).config.maxExpandedCharsPerRef).toList
                { ctx with expandedIds := setAdd ctx.expandedIds nestedId }
              = ((deeper _ _).1,
                  { ctx with expandedIds := setAdd ctx.expandedIds nestedId }) from
              Prod.ext rfl (hd _ _)]
            rw [ih _ _ _]
            simp [setDelete_setAdd _ _ hnotin]

theorem nestedTempl_state (host : Host) :
    ∀ (fuel depth : Nat) (content : List Char) (ctx : RenderContext),
      (nestedTempl host fuel depth content ctx).2 = ctx := by
  intro fuel
  induction fuel with
  | zero => intro depth content ctx; rfl
  | succ n ih =>
    intro depth content ctx
    exact nestedLoop_state host _ (fun c x => ih (depth + 1) c x) depth _ [] ctx ""

theorem getNestedLinkTemplates_state (host : Host) (content : String) (depth : Nat)
    (ctx : RenderContext) : (getNestedLinkTemplates host content depth ctx).2 = ctx :=
  nestedTempl_state host _ depth content.toList ctx

theorem getNestedLinkTemplates_eq (host : Host) (content : String) (depth : Nat)
    (ctx : RenderContext) :
    getNestedLinkTemplates host content depth ctx =
      ((getNestedLinkTemplates host content depth ctx).1, ctx) :=
  Prod.ext rfl (getNestedLinkTemplates_state host content depth ctx)

theorem nestedLoop_depth_exceeded (host : Host)
    (deeper : List Char → RenderContext → String × RenderContext) (depth : Nat) :
    ∀ (spans : List (List Char)) (processed : List String) (ctx : RenderContext)
      (acc : String), depth > ctx.config.maxPreviewDepth →
      nestedLoop host deeper depth spans processed ctx acc = (acc, ctx) := by
  intro spans
  induction spans with
  | nil => intro processed ctx acc _; rfl
  | cons spanTag rest ih =>
    intro processed ctx acc hdep
    unfold nestedLoop
    cases hattr : extractAttrGo "data-target=\"".toList false spanTag with
    | none => exact ih processed ctx acc hdep
    | some nestedId =>
      simp only
      by_cases hmem : (processed.contains nestedId || ctx.expandedIds.contains nestedId) = true
      · rw [if_pos hmem]; exact ih processed ctx acc hdep
      · rw [if_neg hmem, if_pos hdep]; exact ih _ ctx acc hdep

theorem nestedTempl_depth_exceeded (host : Host) (fuel depth : Nat) (content : List Char)
    (ctx : RenderContext) (hdep : depth > ctx.config.maxPreviewDepth) :
    nestedTempl host fuel depth content ctx = ("", ctx) := by
  cases fuel with
  | zero => rfl
  | succ n =>
    exact nestedLoop_depth_exceeded host _ depth _ [] ctx "" hdep

/-- Congruence for the scan loop: two deeper callbacks that agree on every
context sharing the loop's configuration (and that restore their context)
produce identical loops. -/
theorem nestedLoop_congr (host : Host)
    (d1 d2 : List Char → RenderContext → String × RenderContext) (depth : Nat) :
    ∀ (spans : List (List Char)) (processed : List String) (ctx : RenderContext)
      (acc : String),
      (∀ c x, x.config = ctx.config → d1 c x = d2 c x) →
      (∀ c x, (d2 c x).2 = x) →
      nestedLoop host d1 depth spans processed ctx acc
        = nestedLoop host d2 depth spans processed ctx acc := by
  intro spans
  induction spans with
  | nil => intro processed ctx acc _ _; rfl
  | cons spanTag rest ih =>
    intro processed ctx acc hagree hstate
    unfold nestedLoop
    cases hattr : extractAttrGo "data-target=\"".toList false spanTag with
    | none => exact ih processed ctx acc hagree hstate
    | some nestedId =>
      simp only
      by_cases hmem : (processed.contains nestedId || ctx.expandedIds.contains nestedId) = true
      · rw [if_pos hmem, if_pos hmem]; exact ih processed ctx acc hagree hstate
      · rw [if_neg hmem, if_neg hmem]
        by_cases hdep : depth > ctx.config.maxPreviewDepth
        · rw [if_pos hdep, if_pos hdep]; exact ih _ ctx acc hagree hstate
        · rw [if_neg hdep, if_neg hdep]
          cases hsec : host.getSectionById nestedId with
          | none => exact ih _ ctx acc hagree hstate
          | some sec =>
            simp only
            rw [hagree _ { ctx with expandedIds := setAdd ctx.expandedIds nestedId } rfl]
            rw [show d2 (weaveRenderSectionBody host sec.fullMarkdown
                ({ ctx with expandedIds := setAdd ctx.expandedIds nestedId } :
                  RenderContext).config.maxExpandedCharsPerRef).toList
                { ctx with expandedIds := setAdd ctx.expandedIds nestedId }
              = ((d2 _ _).1,
                  { ctx with expandedIds := setAdd ctx.expandedIds nestedId }) from
              Prod.ext rfl (hstate _ _)]
            exact ih _ _ _ hagree hstate

/-- Adequacy of the fuel encoding: any fuel at least the remaining depth
budget `maxPreviewDepth + 1 - depth` yields the same generator result, so
`getNestedLinkTemplates` computes the unbounded depth-guarded recursion of
the source. -/
theorem nestedTempl_fuel_irrelevant (host : Host) :
    ∀ (f g depth : Nat) (content : List Char) (ctx : RenderContext),
      ctx.config.maxPreviewDepth + 1 - depth ≤ f →
      ctx.config.maxPreviewDepth + 1 - depth ≤ g →
      nestedTempl host f depth content ctx = nestedTempl host g depth content ctx := by
  intro f
  induction f with
  | zero =>
    intro g depth content ctx hf hg
    have hdep : depth > ctx.config.maxPreviewDepth := by omega
    rw [nestedTempl_depth_exceeded host 0 depth content ctx hdep,
      nestedTempl_depth_exceeded host g depth content ctx hdep]
  | succ n ih =>
    intro g depth content ctx hf hg
    cases g with
    | zero =>
      have hdep : depth > ctx.config.maxPreviewDepth := by omega
      rw [nestedTempl_depth_exceeded host (n + 1) depth content ctx hdep,
        nestedTempl_depth_exceeded host 0 depth content ctx hdep]
    | succ m =>
      show nestedLoop host _ depth (scanNestedSpans content) [] ctx ""
        = nestedLoop host _ depth (scanNestedSpans content) [] ctx ""
      refine nestedLoop_congr host _ _ depth (scanNestedSpans content) [] ctx ""
        (fun c x hx => ?_) (fun c x => nestedTempl_state host m (depth + 1) c x)
      exact ih m (depth + 1) c x (by rw [hx]; omega) (by rw [hx]; omega)

theorem renderInlineExpansion_state (host : Host) (a b c d e : String)
    (ctx : RenderContext) (depth : Nat) :
    (renderInlineExpansion host a b c d e ctx depth).2 = ctx := by
  unfold renderInlineExpansion
  rw [getNestedLinkTemplates_eq]
  split
  next dt c2 heq =>
    obtain ⟨-, rfl⟩ := Prod.mk.injEq .. ▸ heq
    split <;> rfl

theorem renderStretchExpansion_state (host : Host) (a b c d e : String)
    (ctx : RenderContext) (depth : Nat) :
    (renderStretchExpansion host a b c d e ctx depth).2 = ctx := by
  unfold renderStretchExpansion
  rw [getNestedLinkTemplates_eq]
  split
  next dt c2 heq =>
    obtain ⟨-, rfl⟩ := Prod.mk.injEq .. ▸ heq
    split <;> rfl

theorem renderOverlayExpansion_state (host : Host) (a b c d e : String)
    (ctx : RenderContext) (depth : Nat) :
    (renderOverlayExpansion host a b c d e ctx depth).2 = ctx := by
  unfold renderOverlayExpansion
  rw [getNestedLinkTemplates_eq]
  split
  next dt c2 heq =>
    obtain ⟨-, rfl⟩ := Prod.mk.injEq .. ▸ heq
    split <;> rfl

theorem renderPanelExpansion_state (host : Host) (a b c d e : String)
    (ctx : RenderContext) (depth : Nat) :
    (renderPanelExpansion host a b c d e ctx depth).2 = ctx := by
  unfold renderPanelExpansion
  rw [getNestedLinkTemplates_eq]
  split
  next dt c2 heq =>
    obtain ⟨-, rfl⟩ := Prod.mk.injEq .. ▸ heq
    split <;> rfl

theorem renderFootnoteRef_frame (t l ti c : String) (ctx : RenderContext) :
    (renderFootnoteRef t l ti c ctx).2.expandedIds = ctx.expandedIds ∧
    (renderFootnoteRef t l ti c ctx).2.expandedRefs = ctx.expandedRefs ∧
    (renderFootnoteRef t l ti c ctx).2.config = ctx.config ∧
    (renderFootnoteRef t l ti c ctx).2.sidenoteCount = ctx.sidenoteCount ∧
    (renderFootnoteRef t l ti c ctx).2.inlineContents = ctx.inlineContents := by
  unfold renderFootnoteRef
  cases h : footnotesGet ctx.footnotes t <;> simp only [h] <;> split <;> simp

/-- Full characterization of the post-state of the resolve branch: the four
templated display modes leave everything but `expandedRefs` unchanged. -/
theorem renderNodeLink_frame (host : Host) (parsed : ParsedNodeUrl) (linkText : String)
    (sec : Option ContentSection) (depth : Nat) (ctx : RenderContext) :
    (renderNodeLink host parsed linkText sec depth ctx).2.expandedIds = ctx.expandedIds ∧
    (renderNodeLink host parsed linkText sec depth ctx).2.config = ctx.config ∧
    (renderNodeLink host parsed linkText sec depth ctx).2.expandedRefs ≤
      ctx.expandedRefs + 1 ∧
    ctx.expandedRefs ≤ (renderNodeLink host parsed linkText sec depth ctx).2.expandedRefs := by
  unfold renderNodeLink
  cases sec with
  | none => simp
  | some s =>
    simp only
    by_cases h1 : parsed.id ∈ ctx.expandedIds
    · rw [if_pos h1]; simp
    · rw [if_neg h1]
      by_cases h2 : depth > ctx.config.maxPreviewDepth
      · rw [if_pos h2]; simp
      · rw [if_neg h2]
        by_cases h3 : ctx.expandedRefs ≥ ctx.config.maxExpandedRefsPerDoc
        · rw [if_pos h3]; simp
        · rw [if_neg h3]
          have hdel : setDelete (setAdd ctx.expandedIds parsed.id) parsed.id
              = ctx.expandedIds := setDelete_setAdd _ _ h1
          cases hd : parsed.display.getD DisplayType.inline <;>
            simp [renderInlineExpansion_state, renderStretchExpansion_state,
              renderOverlayExpansion_state, renderPanelExpansion_state,
              renderFootnoteRef_frame, hdel]

/-- Explicit form of the resolve branch of `renderNodeLink`: the counter is
incremented, the id appended to the cycle-guard set for the body render and
removed again before dispatch, and the result is the display strategy of the
reference's mode (default `inline`). -/
theorem renderNodeLink_resolve (host : Host) (parsed : ParsedNodeUrl) (linkText : String)
    (s : ContentSection) (depth : Nat) (ctx : RenderContext)
    (h1 : parsed.id ∉ ctx.expandedIds)
    (h2 : ¬ depth > ctx.config.maxPreviewDepth)
    (h3 : ¬ ctx.expandedRefs ≥ ctx.config.maxExpandedRefsPerDoc) :
    renderNodeLink host parsed linkText (some s) depth ctx =
      (let display := parsed.display.getD .inline
       let targetId := escapeHtml parsed.id
       let sectionTitle := if s.title = "" then s.id else s.title
       let filePath := "#" ++ targetId
       let ctx1 : RenderContext :=
         { ctx with expandedRefs := ctx.expandedRefs + 1,
                    expandedIds := ctx.expandedIds ++ [parsed.id] }
       let content := renderSectionBody host s (depth + 1) ctx1
         (display == DisplayType.inline)
       let ctx2 : RenderContext := { ctx1 with expandedIds := ctx.expandedIds }
       match display with
       | .inline =>
         renderInlineExpansion host targetId linkText sectionTitle content filePath ctx2 depth
       | .stretch =>
         renderStretchExpansion host targetId linkText sectionTitle content filePath ctx2 depth
       | .overlay =>
         renderOverlayExpansion host targetId linkText sectionTitle content filePath ctx2 depth
       | .footnote => renderFootnoteRef targetId linkText sectionTitle content ctx2
       | .sidenote =>
         (renderSidenote targetId linkText sectionTitle
           (renderBasicMarkdown (extractContentAfterFrontmatter s.fullMarkdown)) filePath
           (ctx2.sidenoteCount + 1),
          { ctx2 with sidenoteCount := ctx2.sidenoteCount + 1 })
       | .margin =>
         (renderMarginNote targetId linkText sectionTitle
           (renderBasicMarkdown (extractContentAfterFrontmatter s.fullMarkdown)) filePath,
          ctx2)
       | .panel =>
         renderPanelExpansion host targetId linkText sectionTitle content filePath ctx2
           depth) := by
  unfold renderNodeLink
  dsimp only
  rw [if_neg h1, if_neg h2, if_neg h3]
  have hadd : setAdd ctx.expandedIds parsed.id = ctx.expandedIds ++ [parsed.id] := by
    unfold setAdd; rw [if_neg h1]
  have hdel : setDelete (setAdd ctx.expandedIds parsed.id) parsed.id = ctx.expandedIds :=
    setDelete_setAdd _ _ h1
  have hdel2 : setDelete (ctx.expandedIds ++ [parsed.id]) parsed.id = ctx.expandedIds :=
    hadd ▸ hdel
  cases hd : parsed.display.getD DisplayType.inline <;> simp only [hd, hadd, hdel, hdel2]

/-- Per-token state frame: the cycle-guard set and configuration are unchanged
by any token, and the counter grows by at most one. -/
theorem renderTok_frame (host : Host) (ctx : RenderContext) (t : Tok) :
    (renderTok host ctx t).2.expandedIds = ctx.expandedIds ∧
    (renderTok host ctx t).2.config = ctx.config := by
  cases t with
  | text c => exact ⟨rfl, rfl⟩
  | other h => exact ⟨rfl, rfl⟩
  | nodeLink parsed linkText =>
    exact ⟨(renderNodeLink_frame host parsed _ _ 0 ctx).1,
      (renderNodeLink_frame host parsed _ _ 0 ctx).2.1⟩

/-- Stream-level state frame: rendering any token stream leaves the
cycle-guard set and the configuration as they were. -/
theorem renderTokens_frame (host : Host) :
    ∀ (toks : List Tok) (ctx : RenderContext),
      (renderTokens host toks ctx).2.expandedIds = ctx.expandedIds ∧
      (renderTokens host toks ctx).2.config = ctx.config := by
  intro toks
  induction toks with
  | nil => intro ctx; exact ⟨rfl, rfl⟩
  | cons t ts ih =>
    intro ctx
    unfold renderTokens
    have h1 := renderTok_frame host ctx t
    have h2 := ih (renderTok host ctx t).2
    constructor
    · simpa [h2.1] using h1.1
    · simpa [h2.2] using h1.2

/-- The fold of `renderFootnotesSection` leaves the context untouched
(each `getNestedLinkTemplates` call restores it). -/
theorem renderFootnotesFold_state (host : Host) :
    ∀ (l : List FootnoteEntry) (ctx : RenderContext) (items nested : String),
      (renderFootnotesFold host l ctx items nested).2.2 = ctx := by
  intro l
  induction l with
  | nil => intro ctx items nested; rfl
  | cons fn rest ih =>
    intro ctx items nested
    unfold renderFootnotesFold
    rw [getNestedLinkTemplates_eq]
    exact ih ctx _ _

/-- The accumulated list items of `renderFootnotesSection`: one `<li>` per
entry, in the order of the given (sorted) list. -/
theorem renderFootnotesFold_items (host : Host) :
    ∀ (l : List FootnoteEntry) (ctx : RenderContext) (items nested : String),
      (renderFootnotesFold host l ctx items nested).1 =
        items ++ concatAll (l.map footnoteListItem) := by
  intro l
  induction l with
  | nil => intro ctx items nested; simp [renderFootnotesFold, concatAll]
  | cons fn rest ih =>
    intro ctx items nested
    unfold renderFootnotesFold
    rw [getNestedLinkTemplates_eq]
    rw [ih]
    simp [concatAll, String.append_assoc]

/-- `renderFootnotesSection` restores the context it is given. -/
theorem renderFootnotesSection_state (host : Host) (ctx : RenderContext) :
    (renderFootnotesSection host ctx).2 = ctx := by
  unfold renderFootnotesSection
  split
  · rfl
  · have h := renderFootnotesFold_state host (sortFootnotes ctx.footnotes) ctx "" ""
    revert h
    cases hfold : renderFootnotesFold host (sortFootnotes ctx.footnotes) ctx "" "" with
    | mk a bc =>
      cases bc with
      | mk b c => intro h; simpa using h

/-- The resolve branch increments `expandedRefs` by exactly one, whatever the
display mode dispatches to. -/
theorem renderNodeLink_refs_resolve (host : Host) (parsed : ParsedNodeUrl)
    (linkText : String) (s : ContentSection) (depth : Nat) (ctx : RenderContext)
    (h1 : parsed.id ∉ ctx.expandedIds)
    (h2 : ¬ depth > ctx.config.maxPreviewDepth)
    (h3 : ¬ ctx.expandedRefs ≥ ctx.config.maxExpandedRefsPerDoc) :
    (renderNodeLink host parsed linkText (some s) depth ctx).2.expandedRefs
      = ctx.expandedRefs + 1 := by
  rw [renderNodeLink_resolve host parsed linkText s depth ctx h1 h2 h3]
  cases hd : parsed.display.getD DisplayType.inline <;>
    simp only [hd] <;>
    simp [renderInlineExpansion_state, renderStretchExpansion_state,
      renderOverlayExpansion_state, renderPanelExpansion_state, renderFootnoteRef_frame]

/-- C1: `renderNodeLink` decides the outcome of every parsed node reference in
the fixed order missing target → cycle → depth limit → reference limit →
resolve, first match winning.  Each of the four non-resolve outcomes returns
its badge fragment with the context unchanged — in particular a missing
target never increments `expandedRefs` — while the resolve outcome increments
`expandedRefs`, pushes the id onto the cycle-guard set for the body render
(done at `depth + 1`), pops it again, and dispatches to the display strategy
of the reference's display mode, defaulting to `inline` when unspecified. -/
theorem C1_resolution_order (host : Host) (parsed : ParsedNodeUrl) (linkText : String)
    (s : ContentSection) (depth : Nat) (ctx : RenderContext) :
    (renderNodeLink host parsed linkText none depth ctx
       = (missingFragment (escapeHtml parsed.id) linkText, ctx)) ∧
    (parsed.id ∈ ctx.expandedIds →
       renderNodeLink host parsed linkText (some s) depth ctx
         = (cycleFragment (escapeHtml parsed.id) linkText ("#" ++ escapeHtml parsed.id),
            ctx)) ∧
    (parsed.id ∉ ctx.expandedIds → depth > ctx.config.maxPreviewDepth →
       renderNodeLink host parsed linkText (some s) depth ctx
         = (depthLimitFragment (escapeHtml parsed.id) linkText
              ("#" ++ escapeHtml parsed.id), ctx)) ∧
    (parsed.id ∉ ctx.expandedIds → ¬ depth > ctx.config.maxPreviewDepth →
       ctx.expandedRefs ≥ ctx.config.maxExpandedRefsPerDoc →
       renderNodeLink host parsed linkText (some s) depth ctx
         = (refLimitFragment (escapeHtml parsed.id) linkText
              ("#" ++ escapeHtml parsed.id), ctx)) ∧
    (parsed.id ∉ ctx.expandedIds → ¬ depth > ctx.config.maxPreviewDepth →
       ¬ ctx.expandedRefs ≥ ctx.config.maxExpandedRefsPerDoc →
       (renderNodeLink host parsed linkText (some s) depth ctx).2.expandedRefs
           = ctx.expandedRefs + 1 ∧
       renderNodeLink host parsed linkText (some s) depth ctx =
         (let display := parsed.display.getD .inline
          let targetId := escapeHtml parsed.id
          let sectionTitle := if s.title = "" then s.id else s.title
          let filePath := "#" ++ targetId
          let ctx1 : RenderContext :=
            { ctx with expandedRefs := ctx.expandedRefs + 1,
                       expandedIds := ctx.expandedIds ++ [parsed.id] }
          let content := renderSectionBody host s (depth + 1) ctx1
            (display == DisplayType.inline)
          let ctx2 : RenderContext := { ctx1 with expandedIds := ctx.expandedIds }
          match display with
          | .inline =>
            renderInlineExpansion host targetId linkText sectionTitle content filePath
              ctx2 depth
          | .stretch =>
            renderStretchExpansion host targetId linkText sectionTitle content filePath
              ctx2 depth
          | .overlay =>
            renderOverlayExpansion host targetId linkText sectionTitle content filePath
              ctx2 depth
          | .footnote => renderFootnoteRef targetId linkText sectionTitle content ctx2
          | .sidenote =>
            (renderSidenote targetId linkText sectionTitle
              (renderBasicMarkdown (extractContentAfterFrontmatter s.fullMarkdown))
              filePath (ctx2.sidenoteCount + 1),
             { ctx2 with sidenoteCount := ctx2.sidenoteCount + 1 })
          | .margin =>
            (renderMarginNote targetId linkText sectionTitle
              (renderBasicMarkdown (extractContentAfterFrontmatter s.fullMarkdown))
              filePath, ctx2)
          | .panel =>
            renderPanelExpansion host targetId linkText sectionTitle content filePath
              ctx2 depth)) ∧
    (renderNodeLink host { parsed with display := none } linkText (some s) depth ctx
       = renderNodeLink host { parsed with display := some DisplayType.inline } linkText
           (some s) depth ctx) := by
  refine ⟨rfl, ?_, ?_, ?_, ?_, ?_⟩
  · intro h1
    unfold renderNodeLink
    dsimp only
    rw [if_pos h1]
  · intro h1 h2
    unfold renderNodeLink
    dsimp only
    rw [if_neg h1, if_pos h2]
  · intro h1 h2 h3
    unfold renderNodeLink
    dsimp only
    rw [if_neg h1, if_neg h2, if_pos h3]
  · intro h1 h2 h3
    exact ⟨renderNodeLink_refs_resolve host parsed linkText s depth ctx h1 h2 h3,
      renderNodeLink_resolve host parsed linkText s depth ctx h1 h2 h3⟩
  · rfl

/-- Witness for C1: concrete inputs exercising the cycle, depth-limit,
reference-limit and resolve branches of `renderNodeLink`, each hypothesis
discharged by evaluation. -/
theorem C1_resolution_order_witness :
    (renderNodeLink hostDemo { id := "A" } "t" (some secA) 0
        { createRenderContext cfgDepth1 with expandedIds := ["A"] }
      = (cycleFragment (escapeHtml "A") "t" ("#" ++ escapeHtml "A"),
         { createRenderContext cfgDepth1 with expandedIds := ["A"] })) ∧
    (renderNodeLink hostDemo { id := "A" } "t" (some secA) 2
        (createRenderContext cfgDepth1)
      = (depthLimitFragment (escapeHtml "A") "t" ("#" ++ escapeHtml "A"),
         createRenderContext cfgDepth1)) ∧
    (renderNodeLink hostDemo { id := "A" } "t" (some secA) 0
        { createRenderContext cfgDepth1 with expandedRefs := 50 }
      = (refLimitFragment (escapeHtml "A") "t" ("#" ++ escapeHtml "A"),
         { createRenderContext cfgDepth1 with expandedRefs := 50 })) ∧
    ((renderNodeLink hostDemo { id := "A" } "t" (some secA) 0
        (createRenderContext cfgDepth1)).2.expandedRefs = 0 + 1) :=
  ⟨(C1_resolution_order hostDemo { id := "A" } "t" secA 0
      { createRenderContext cfgDepth1 with expandedIds := ["A"] }).2.1 (by decide),
   (C1_resolution_order hostDemo { id := "A" } "t" secA 2
      (createRenderContext cfgDepth1)).2.2.1 (by decide) (by decide),
   (C1_resolution_order hostDemo { id := "A" } "t" secA 0
      { createRenderContext cfgDepth1 with expandedRefs := 50 }).2.2.2.1
      (by decide) (by decide) (by decide),
   ((C1_resolution_order hostDemo { id := "A" } "t" secA 0
      (createRenderContext cfgDepth1)).2.2.2.2.1 (by decide) (by decide) (by decide)).1⟩

theorem footnotesGet_eq_none (fns : List FootnoteEntry) (t : String) :
    footnotesGet fns t = none ↔ ∀ e ∈ fns, e.id ≠ t := by
  unfold footnotesGet
  rw [List.find?_eq_none]
  simp

theorem footnotesPushRef_of_none (fns : List FootnoteEntry) (t r : String)
    (h : footnotesGet fns t = none) : footnotesPushRef fns t r = fns := by
  rw [footnotesGet_eq_none] at h
  unfold footnotesPushRef
  conv_rhs => rw [show fns = fns.map id from (List.map_id fns).symm]
  exact List.map_congr_left (fun e he => by rw [if_neg (h e he)]; rfl)

theorem footnotesPushRef_append (fns : List FootnoteEntry) (e : FootnoteEntry)
    (t r : String) :
    footnotesPushRef (fns ++ [e]) t r =
      footnotesPushRef fns t r ++
        (if e.id = t then [{ e with refIds := e.refIds ++ [r] }] else [e]) := by
  unfold footnotesPushRef
  rw [List.map_append]
  congr 1
  split <;> simp_all

theorem footnotesGet_append_of_none (fns : List FootnoteEntry) (e : FootnoteEntry)
    (t : String) (h : footnotesGet fns t = none) :
    footnotesGet (fns ++ [e]) t = if e.id = t then some e else none := by
  unfold footnotesGet at *
  rw [List.find?_append, h]
  simp only [Option.none_or]
  split <;> simp_all

/-- Registry effect of a first-sight footnote reference. -/
theorem renderFootnoteRef_fresh (t l ti c : String) (ctx : RenderContext)
    (h : footnotesGet ctx.footnotes t = none) :
    (renderFootnoteRef t l ti c ctx).2.footnotes =
      ctx.footnotes ++ [⟨t, ctx.footnoteCount + 1, ti, c,
        [fnRefId (ctx.footnoteRefCount + 1)]⟩] ∧
    (renderFootnoteRef t l ti c ctx).2.footnoteCount = ctx.footnoteCount + 1 ∧
    (renderFootnoteRef t l ti c ctx).2.footnoteRefCount = ctx.footnoteRefCount + 1 := by
  unfold renderFootnoteRef
  dsimp only
  rw [h]
  dsimp only
  rw [footnotesPushRef_append _ _ _ _, footnotesPushRef_of_none _ _ _ h, if_pos rfl]
  constructor
  · split <;> rfl
  · constructor <;> (split <;> rfl)

/-- Registry effect of a repeat footnote reference. -/
theorem renderFootnoteRef_repeat (t l ti c : String) (ctx : RenderContext)
    (e : FootnoteEntry) (h : footnotesGet ctx.footnotes t = some e) :
    (renderFootnoteRef t l ti c ctx).2.footnotes =
      footnotesPushRef ctx.footnotes t (fnRefId (ctx.footnoteRefCount + 1)) ∧
    (renderFootnoteRef t l ti c ctx).2.footnoteCount = ctx.footnoteCount ∧
    (renderFootnoteRef t l ti c ctx).2.footnoteRefCount = ctx.footnoteRefCount + 1 := by
  unfold renderFootnoteRef
  dsimp only
  rw [h]
  dsimp only
  refine ⟨?_, ?_, ?_⟩ <;> (split <;> rfl)

/-- C2: the cycle-guard set holds a target id exactly while that target's
content is rendered.  `renderNodeLink` restores the set after every call (the
id is added right before the body render — visible in the resolve equation,
whose body context carries `expandedIds ++ [id]` — and removed right after,
before dispatch), so two sibling references to the same target both resolve,
each consuming budget (only an ancestor still on the recursion path is
flagged), and the set is empty both before and after a top-level render of
any token stream, with the footnote flush also preserving it. -/
theorem C2_cycle_guard_membership (host : Host) (cfg : PreviewConfig)
    (parsed : ParsedNodeUrl) (lt : String) (s : ContentSection) (depth : Nat)
    (ctx ctx' : RenderContext) (sec : Option ContentSection) (toks : List Tok) :
    ((renderNodeLink host parsed lt sec depth ctx).2.expandedIds = ctx.expandedIds) ∧
    (parsed.id ∉ ctx.expandedIds → ¬ depth > ctx.config.maxPreviewDepth →
       ¬ ctx.expandedRefs ≥ ctx.config.maxExpandedRefsPerDoc →
       renderNodeLink host parsed lt (some s) depth ctx =
         (let display := parsed.display.getD .inline
          let targetId := escapeHtml parsed.id
          let sectionTitle := if s.title = "" then s.id else s.title
          let filePath := "#" ++ targetId
          let ctx1 : RenderContext :=
            { ctx with expandedRefs := ctx.expandedRefs + 1,
                       expandedIds := ctx.expandedIds ++ [parsed.id] }
          let content := renderSectionBody host s (depth + 1) ctx1
            (display == DisplayType.inline)
          let ctx2 : RenderContext := { ctx1 with expandedIds := ctx.expandedIds }
          match display with
          | .inline =>
            renderInlineExpansion host targetId lt sectionTitle content filePath ctx2 depth
          | .stretch =>
            renderStretchExpansion host targetId lt sectionTitle content filePath ctx2 depth
          | .overlay =>
            renderOverlayExpansion host targetId lt sectionTitle content filePath ctx2 depth
          | .footnote => renderFootnoteRef targetId lt sectionTitle content ctx2
          | .sidenote =>
            (renderSidenote targetId lt sectionTitle
              (renderBasicMarkdown (extractContentAfterFrontmatter s.fullMarkdown))
              filePath (ctx2.sidenoteCount + 1),
             { ctx2 with sidenoteCount := ctx2.sidenoteCount + 1 })
          | .margin =>
            (renderMarginNote targetId lt sectionTitle
              (renderBasicMarkdown (extractContentAfterFrontmatter s.fullMarkdown))
              filePath, ctx2)
          | .panel =>
            renderPanelExpansion host targetId lt sectionTitle content filePath
              ctx2 depth)) ∧
    (host.getSectionById parsed.id = some s → parsed.id ∉ ctx.expandedIds →
       ctx.expandedRefs + 1 < ctx.config.maxExpandedRefsPerDoc →
       (renderTokens host [Tok.nodeLink parsed lt, Tok.nodeLink parsed lt] ctx).2.expandedRefs
         = ctx.expandedRefs + 2) ∧
    ((createRenderContext cfg).expandedIds = []) ∧
    ((renderTokens host toks (createRenderContext cfg)).2.expandedIds = []) ∧
    ((renderFootnotesSection host ctx').2.expandedIds = ctx'.expandedIds) := by
  refine ⟨(renderNodeLink_frame host parsed lt sec depth ctx).1,
    renderNodeLink_resolve host parsed lt s depth ctx, ?_, rfl,
    (renderTokens_frame host toks (createRenderContext cfg)).1, by
      rw [renderFootnotesSection_state]⟩
  intro hsec h1 hrefs
  have hdepth : ¬ (0 : Nat) > ctx.config.maxPreviewDepth := by omega
  have h3 : ¬ ctx.expandedRefs ≥ ctx.config.maxExpandedRefsPerDoc := by omega
  unfold renderTokens renderTokens renderTokens
  simp only [renderTok, hsec]
  set lt' := if lt = "" then parsed.id else lt with hlt
  have hfst := renderNodeLink_refs_resolve host parsed lt' s 0 ctx h1 hdepth h3
  have hframe := renderNodeLink_frame host parsed lt' (some s) 0 ctx
  set ctxA := (renderNodeLink host parsed lt' (some s) 0 ctx).2 with hctxA
  have h1' : parsed.id ∉ ctxA.expandedIds := by rw [hframe.1]; exact h1
  have hdepth' : ¬ (0 : Nat) > ctxA.config.maxPreviewDepth := by omega
  have h3' : ¬ ctxA.expandedRefs ≥ ctxA.config.maxExpandedRefsPerDoc := by
    rw [hfst, hframe.2.1]; omega
  have hsnd := renderNodeLink_refs_resolve host parsed lt' s 0 ctxA h1' hdepth' h3'
  simp only [hsnd, hfst]

/-- Witness for C2: in the demo chain, two sibling references to `A` both
resolve (the budget is consumed twice, so neither was flagged as a cycle). -/
theorem C2_cycle_guard_membership_witness :
    (renderTokens hostDemo
        [Tok.nodeLink { id := "A" } "x", Tok.nodeLink { id := "A" } "x"]
        (createRenderContext cfgDepth1)).2.expandedRefs = 0 + 2 :=
  (C2_cycle_guard_membership hostDemo cfgDepth1 { id := "A" } "x" secA 0
      (createRenderContext cfgDepth1) (createRenderContext cfgDepth1)
      none []).2.2.1 (by decide) (by decide) (by decide)

/-- C3: footnote references are deduplicated by target id.  A first-sight
target is numbered `registry size + 1` (the counter and registry size agree
under the stated invariant, which holds for every fresh render context); every
call — first or repeat — allocates a fresh anchor id from the strictly
increasing global counter and appends it to the entry; a repeat call adds no
entry and changes no numbering.  Two references to the same fresh target yield
exactly one entry, numbered once, holding two distinct anchors, and the
flushed section is one list with one item per registered entry, ordered by
assigned number, each item's back-reference being the entry's first anchor
(see `footnoteListItem`). -/
theorem C3_footnote_dedup (host : Host) (t l l2 ti ti2 c c2 : String)
    (ctx ctxF : RenderContext) (e : FootnoteEntry) :
    ((renderFootnoteRef t l ti c ctx).2.footnoteRefCount = ctx.footnoteRefCount + 1) ∧
    (footnotesGet ctx.footnotes t = none → ctx.footnoteCount = ctx.footnotes.length →
       (renderFootnoteRef t l ti c ctx).2.footnotes
         = ctx.footnotes ++ [⟨t, ctx.footnotes.length + 1, ti, c,
             [fnRefId (ctx.footnoteRefCount + 1)]⟩] ∧
       (renderFootnoteRef t l ti c ctx).2.footnoteCount = ctx.footnotes.length + 1) ∧
    (footnotesGet ctx.footnotes t = some e →
       (renderFootnoteRef t l ti c ctx).2.footnotes
         = footnotesPushRef ctx.footnotes t (fnRefId (ctx.footnoteRefCount + 1)) ∧
       (renderFootnoteRef t l ti c ctx).2.footnotes.length = ctx.footnotes.length ∧
       (renderFootnoteRef t l ti c ctx).2.footnoteCount = ctx.footnoteCount) ∧
    (footnotesGet ctx.footnotes t = none → ctx.footnoteCount = ctx.footnotes.length →
       (renderFootnoteRef t l2 ti2 c2 (renderFootnoteRef t l ti c ctx).2).2.footnotes
         = ctx.footnotes ++ [⟨t, ctx.footnotes.length + 1, ti, c,
             [fnRefId (ctx.footnoteRefCount + 1), fnRefId (ctx.footnoteRefCount + 2)]⟩]) ∧
    (ctx.footnoteRefCount = 0 →
       fnRefId (ctx.footnoteRefCount + 1) ≠ fnRefId (ctx.footnoteRefCount + 2)) ∧
    (ctxF.footnotes ≠ [] →
       (renderFootnotesSection host ctxF).1
         = "<hr class=\"weave-footnotes-separator\"><section class=\"weave-footnotes\" data-weave=\"1\"><ol class=\"weave-footnotes-list\">"
           ++ concatAll ((sortFootnotes ctxF.footnotes).map footnoteListItem)
           ++ "</ol></section>"
           ++ (renderFootnotesFold host (sortFootnotes ctxF.footnotes) ctxF "" "").2.1) := by
  refine ⟨?_, ?_, ?_, ?_, ?_, ?_⟩
  · unfold renderFootnoteRef
    dsimp only
    cases footnotesGet ctx.footnotes t <;> (dsimp only; split <;> rfl)
  · intro h hinv
    have := renderFootnoteRef_fresh t l ti c ctx h
    rw [hinv] at this
    exact ⟨this.1, this.2.1⟩
  · intro h
    have := renderFootnoteRef_repeat t l ti c ctx e h
    exact ⟨this.1, by rw [this.1]; simp [footnotesPushRef], this.2.1⟩
  · intro h hinv
    have h1 := renderFootnoteRef_fresh t l ti c ctx h
    set ctx1 := (renderFootnoteRef t l ti c ctx).2 with hctx1
    have hget1 : footnotesGet ctx1.footnotes t =
        some ⟨t, ctx.footnoteCount + 1, ti, c, [fnRefId (ctx.footnoteRefCount + 1)]⟩ := by
      rw [h1.1, footnotesGet_append_of_none _ _ _ h, if_pos rfl]
    have h2 := renderFootnoteRef_repeat t l2 ti2 c2 ctx1 _ hget1
    rw [h2.1, h1.1, h1.2.2, footnotesPushRef_append _ _ _ _,
      footnotesPushRef_of_none _ _ _ h, if_pos rfl, hinv]
    rfl
  · intro h0
    rw [h0]
    decide
  · intro hne
    unfold renderFootnotesSection
    rw [if_neg (by simpa using hne)]
    have hi := renderFootnotesFold_items host (sortFootnotes ctxF.footnotes) ctxF "" ""
    revert hi
    cases hfold : renderFootnotesFold host (sortFootnotes ctxF.footnotes) ctxF "" "" with
    | mk items rest =>
      cases rest with
      | mk nested cend =>
        intro hi
        simp only at hi ⊢
        rw [hi]
        simp

/-- Witness for C3: a fresh render registering the same footnote target twice
yields one entry numbered 1 with the two distinct anchors `fnref-1` and
`fnref-2`, and the flushed section lists it once with `fnref-1` as back
reference. -/
theorem C3_footnote_dedup_witness :
    (renderFootnoteRef "fn" "x" "T" "body"
        (renderFootnoteRef "fn" "x" "T" "body" (createRenderContext cfgDepth1)).2).2.footnotes
      = [⟨"fn", 1, "T", "body", [fnRefId 1, fnRefId 2]⟩] ∧
    fnRefId 1 ≠ fnRefId 2 ∧
    (renderFootnotesSection hostDemo
        { createRenderContext cfgDepth1 with
            footnotes := [⟨"fn", 1, "T", "body", [fnRefId 1, fnRefId 2]⟩] }).1
      = "<hr class=\"weave-footnotes-separator\"><section class=\"weave-footnotes\" data-weave=\"1\"><ol class=\"weave-footnotes-list\">"
        ++ concatAll ((sortFootnotes [⟨"fn", 1, "T", "body", [fnRefId 1, fnRefId 2]⟩]).map
              footnoteListItem)
        ++ "</ol></section>"
        ++ (renderFootnotesFold hostDemo
              (sortFootnotes [⟨"fn", 1, "T", "body", [fnRefId 1, fnRefId 2]⟩])
              { createRenderContext cfgDepth1 with
                  footnotes := [⟨"fn", 1, "T", "body", [fnRefId 1, fnRefId 2]⟩] } "" "").2.1 := by
  refine ⟨?_, ?_, ?_⟩
  · have := (C3_footnote_dedup hostDemo "fn" "x" "x" "T" "T" "body" "body"
      (createRenderContext cfgDepth1) (createRenderContext cfgDepth1)
      ⟨"", 0, "", "", []⟩).2.2.2.1 (by decide) (by decide)
    simpa using this
  · exact (C3_footnote_dedup hostDemo "fn" "x" "x" "T" "T" "body" "body"
      (createRenderContext cfgDepth1) (createRenderContext cfgDepth1)
      ⟨"", 0, "", "", []⟩).2.2.2.2.1 (by decide)
  · exact (C3_footnote_dedup hostDemo "fn" "x" "x" "T" "T" "body" "body"
      (createRenderContext cfgDepth1)
      { createRenderContext cfgDepth1 with
          footnotes := [⟨"fn", 1, "T", "body", [fnRefId 1, fnRefId 2]⟩] }
      ⟨"", 0, "", "", []⟩).2.2.2.2.2 (by decide)

/-- Counterexample to C4 as stated: the character-budget truncation of the
rendered fragment is not decided on the raw content length.  (i) For a target
whose raw markdown (12 characters) exceeds the 10-character limit but lacks
frontmatter, the `(Content truncated)` marker is appended yet the fragment is
the full 74-character frontmatter-error fragment, not truncated at the
boundary.  (ii) For a target whose raw markdown (15 characters) is under the
20-character limit, the fragment is nevertheless sliced at the boundary with
an ellipsis, because the rendered HTML (33 characters) exceeds it. -/
theorem C4_truncation_counterexample :
    (renderSectionBody hostChars secNoFrontmatter 1 (createRenderContext cfgChars10) false
       = missingFrontmatterDiv ++ truncatedSpan) ∧
    (secNoFrontmatter.fullMarkdown.length > cfgChars10.maxExpandedCharsPerRef) ∧
    (¬ (renderSectionBody hostChars secNoFrontmatter 1 (createRenderContext cfgChars10)
          false).length
        ≤ cfgChars10.maxExpandedCharsPerRef + "...".length + truncatedSpan.length) ∧
    (secSmallRaw.fullMarkdown.length ≤ cfgChars20.maxExpandedCharsPerRef) ∧
    (renderSectionBody hostChars secSmallRaw 1 (createRenderContext cfgChars20) false
       = strTake htmlWide 20 ++ "...") ∧
    (renderSectionBody hostChars secSmallRaw 1 (createRenderContext cfgChars20) false
       ≠ htmlWide) := by
  refine ⟨by decide, by decide, by decide, by decide, by decide, by decide⟩

/-- C4 (amended): the `(Content truncated)` marker is appended exactly when
the raw target markdown length exceeds `maxExpandedCharsPerRef`, while the
HTML slicing inside `renderWeaveContent` is decided on the rendered HTML's own
length (slice to the limit plus `...` when it exceeds, pass through
otherwise, bounding the successful output by `limit + 3`); both decisions
depend only on the configuration — not on the depth argument or the cycle or
budget state — and produce a plain string, blocking nothing downstream. -/
theorem C4_truncation_amended (host : Host) (sec : ContentSection) (depth depth' : Nat)
    (ctx ctx' : RenderContext) (strip strip' : Bool) (md html : String) (mc : Nat) :
    (sec.fullMarkdown.length > ctx.config.maxExpandedCharsPerRef →
       renderSectionBody host sec depth ctx strip
         = weaveRenderSectionBody host sec.fullMarkdown ctx.config.maxExpandedCharsPerRef
           ++ truncatedSpan) ∧
    (¬ sec.fullMarkdown.length > ctx.config.maxExpandedCharsPerRef →
       renderSectionBody host sec depth ctx strip
         = weaveRenderSectionBody host sec.fullMarkdown ctx.config.maxExpandedCharsPerRef) ∧
    (host.coreRender md = .ok html → mc ≠ 0 → html.length > mc →
       renderWeaveContent host md mc = strTake html mc ++ "...") ∧
    (host.coreRender md = .ok html → ¬ (mc ≠ 0 ∧ html.length > mc) →
       renderWeaveContent host md mc = html) ∧
    (host.coreRender md = .ok html → mc ≠ 0 →
       (renderWeaveContent host md mc).length ≤ mc + 3) ∧
    (ctx.config = ctx'.config →
       renderSectionBody host sec depth ctx strip
         = renderSectionBody host sec depth' ctx' strip') := by
  refine ⟨?_, ?_, ?_, ?_, ?_, ?_⟩
  · intro h
    unfold renderSectionBody
    rw [if_pos h]
  · intro h
    unfold renderSectionBody
    rw [if_neg h]
  · intro hok hmc hlen
    unfold renderWeaveContent
    rw [hok]
    dsimp only
    rw [if_pos ⟨hmc, hlen⟩]
  · intro hok hcond
    unfold renderWeaveContent
    rw [hok]
    dsimp only
    rw [if_neg hcond]
  · intro hok hmc
    unfold renderWeaveContent
    rw [hok]
    dsimp only
    split
    · next hcond =>
      have h1 : (strTake html mc).length ≤ mc := by
        simp only [strTake, String.length, String.mk]
        simpa using Nat.min_le_left mc html.toList.length
      calc (strTake html mc ++ "...").length
          = (strTake html mc).length + 3 := by
            simp [String.length_append]
            decide
        _ ≤ mc + 3 := by omega
    · next hcond =>
      have : html.length ≤ mc := by
        by_contra hgt
        exact hcond ⟨hmc, by omega⟩
      omega
  · intro hcfg
    simp only [renderSectionBody, hcfg]

/-- Witness for C4's amended theorem: concrete truncation scenarios with each
hypothesis discharged by evaluation. -/
theorem C4_truncation_amended_witness :
    (renderSectionBody hostChars secNoFrontmatter 1 (createRenderContext cfgChars10) false
       = weaveRenderSectionBody hostChars secNoFrontmatter.fullMarkdown
           (createRenderContext cfgChars10).config.maxExpandedCharsPerRef ++ truncatedSpan) ∧
    (renderWeaveContent hostChars secSmallRaw.fullMarkdown 20 = strTake htmlWide 20 ++ "...") ∧
    ((renderWeaveContent hostChars secSmallRaw.fullMarkdown 20).length ≤ 20 + 3) ∧
    (renderSectionBody hostChars secSmallRaw 1 (createRenderContext cfgChars20) false
       = renderSectionBody hostChars secSmallRaw 2 ctxDirty true) :=
  ⟨(C4_truncation_amended hostChars secNoFrontmatter 1 1 (createRenderContext cfgChars10)
      (createRenderContext cfgChars10) false false "" "" 0).1 (by decide),
   (C4_truncation_amended hostChars secSmallRaw 1 1 (createRenderContext cfgChars20)
      (createRenderContext cfgChars20) false false secSmallRaw.fullMarkdown htmlWide 20).2.2.1
      (by rfl) (by decide) (by decide),
   (C4_truncation_amended hostChars secSmallRaw 1 1 (createRenderContext cfgChars20)
      (createRenderContext cfgChars20) false false secSmallRaw.fullMarkdown htmlWide 20).2.2.2.2.1
      (by rfl) (by decide),
   (C4_truncation_amended hostChars secSmallRaw 1 2 (createRenderContext cfgChars20)
      ctxDirty false true "" "" 0).2.2.2.2.2 (by decide)⟩

/-- C5: with the same content lookup (`Host`) and the same configuration, the
wrapped render entry point is a deterministic function of the token stream:
it installs a fresh `RenderContext` unconditionally, overwriting whatever
context the incoming env carries, so its output is independent of all prior
env state — in particular, re-invoking it on the env mutated by a previous
call produces byte-identical output, and no counter, registry or set survives
between calls.  The env is the only mutable channel between calls in the
source (`createWeavePlugin` keeps no module-level render state), so
independence of the env argument is exactly the absence of surviving state. -/
theorem C5_render_idempotent (host : Host) (cfg : PreviewConfig) (toks : List Tok)
    (env env' : WeaveEnv) :
    ((mdRenderCall host cfg toks env).1 = (mdRenderCall host cfg toks env').1) ∧
    ((mdRenderCall host cfg toks (mdRenderCall host cfg toks env).2).1
       = (mdRenderCall host cfg toks env).1) ∧
    ((mdRenderCall host cfg toks env).1
       = (mdRenderCall host cfg toks { weaveContext := none }).1) :=
  ⟨rfl, rfl, rfl⟩

/-- Counterexample to C6 as stated: with `maxPreviewDepth = 1`, rendering the
demo chain `A → B → C` does not mark the deeper references as depth-limited,
and content beyond the first level does appear in the output through a
generated nested template: `B`'s content is emitted inside a hidden template
(one extra level), so only `C` is cut off. -/
theorem C6_depth_counterexample :
    (strContains chainOut1
       "<template class=\"weave-overlay-content-template\" data-for=\"B\">" = true) ∧
    (strContains chainOut1 "B text" = true) ∧
    (strContains chainOut1 "weave-badge-depth" = false) := by
  refine ⟨by decide, by decide, by decide⟩

/-- C6 (amended): a reference reaching `renderNodeLink` at a depth greater
than `maxPreviewDepth` yields the depth-limit badge fragment and consumes no
budget, and template generation skips every target once the depth budget is
exceeded.  With `maxPreviewDepth = 1`, the demo chain `A → B → C` expands
exactly one level of content visibly (`A`'s body); the deeper references are
emitted as inert client-side triggers rather than depth-limit badges, a
hidden template carrying `B`'s content is still generated (template depth 1
is within budget), `C`'s content appears nowhere, and exactly one reference
is counted against the budget. -/
theorem C6_depth_amended (host : Host) (parsed : ParsedNodeUrl) (lt content : String)
    (s : ContentSection) (depth : Nat) (ctx : RenderContext) :
    (parsed.id ∉ ctx.expandedIds → depth > ctx.config.maxPreviewDepth →
       renderNodeLink host parsed lt (some s) depth ctx
         = (depthLimitFragment (escapeHtml parsed.id) lt ("#" ++ escapeHtml parsed.id),
            ctx)) ∧
    (depth > ctx.config.maxPreviewDepth →
       getNestedLinkTemplates host content depth ctx = ("", ctx)) ∧
    (strContains chainOut1 "A text" = true) ∧
    (strContains chainOut1
       "<template class=\"weave-overlay-content-template\" data-for=\"B\">" = true) ∧
    (strContains chainOut1 "CCONTENT" = false) ∧
    ((renderTokens hostDemo [Tok.nodeLink { id := "A" } "lnkA"]
        (createRenderContext cfgDepth1)).2.expandedRefs = 1) := by
  refine ⟨?_, ?_, by decide, by decide, by decide, by decide⟩
  · intro h1 h2
    unfold renderNodeLink
    dsimp only
    rw [if_neg h1, if_pos h2]
  · intro hdep
    exact nestedTempl_depth_exceeded host _ depth content.toList ctx hdep

/-- Witness for C6's amended theorem: a depth-2 reference under a depth
budget of 1 receives the depth-limit badge and leaves the context unchanged,
and template generation at depth 2 emits nothing. -/
theorem C6_depth_amended_witness :
    (renderNodeLink hostDemo { id := "A" } "t" (some secA) 2 (createRenderContext cfgDepth1)
       = (depthLimitFragment (escapeHtml "A") "t" ("#" ++ escapeHtml "A"),
          createRenderContext cfgDepth1)) ∧
    (getNestedLinkTemplates hostDemo htmlA 2 (createRenderContext cfgDepth1)
       = ("", createRenderContext cfgDepth1)) :=
  ⟨(C6_depth_amended hostDemo { id := "A" } "t" htmlA secA 2
      (createRenderContext cfgDepth1)).1 (by decide) (by decide),
   (C6_depth_amended hostDemo { id := "A" } "t" htmlA secA 2
      (createRenderContext cfgDepth1)).2.1 (by decide)⟩

/-- C7: the nested template generator emits one hidden template per deferred
nested marker found in an already-rendered fragment, skipping a marker whose
target is on the active expansion path or was already processed earlier in
the same scan, skipping everything once the given depth exceeds
`maxPreviewDepth` or the target is unresolvable, and — for each target it
does emit — rendering that target's content, emitting its template, and
recursing into that rendered content at `depth + 1` (with the id held in the
active set) to find further nested markers, concatenating the resulting
deeper templates after the emitted one.  (This is the modular generator of
`src/preview/renderers/nestedTemplates.ts`, the variant the display renderers
import; the monolithic plugin file bundles an older local variant without the
recursion step.) -/
theorem C7_nested_template_generator (host : Host) (content : String) (depth : Nat)
    (ctx : RenderContext) (span : List Char) (targetId : String) (sec : ContentSection)
    (deeper : List Char → RenderContext → String × RenderContext)
    (rest : List (List Char)) (processed : List String) (acc : String) :
    (depth > ctx.config.maxPreviewDepth →
       getNestedLinkTemplates host content depth ctx = ("", ctx)) ∧
    (scanNestedSpans content.toList = [span] →
     extractAttrGo "data-target=\"".toList false span = some targetId →
     targetId ∈ ctx.expandedIds →
       getNestedLinkTemplates host content depth ctx = ("", ctx)) ∧
    (extractAttrGo "data-target=\"".toList false span = some targetId →
     targetId ∈ processed →
       nestedLoop host deeper depth (span :: rest) processed ctx acc
         = nestedLoop host deeper depth rest processed ctx acc) ∧
    (scanNestedSpans content.toList = [span] →
     extractAttrGo "data-target=\"".toList false span = some targetId →
     targetId ∉ ctx.expandedIds → ¬ depth > ctx.config.maxPreviewDepth →
     host.getSectionById targetId = none →
       getNestedLinkTemplates host content depth ctx = ("", ctx)) ∧
    (scanNestedSpans content.toList = [span] →
     extractAttrGo "data-target=\"".toList false span = some targetId →
     targetId ∉ ctx.expandedIds → ¬ depth > ctx.config.maxPreviewDepth →
     host.getSectionById targetId = some sec →
       getNestedLinkTemplates host content depth ctx
         = ("<template class=\"" ++ templateClassFor span ++ "\" data-for=\"" ++ targetId
              ++ "\">"
              ++ weaveRenderSectionBody host sec.fullMarkdown
                   ctx.config.maxExpandedCharsPerRef
              ++ "</template>"
              ++ (getNestedLinkTemplates host
                    (weaveRenderSectionBody host sec.fullMarkdown
                      ctx.config.maxExpandedCharsPerRef)
                    (depth + 1)
                    { ctx with expandedIds := ctx.expandedIds ++ [targetId] }).1,
            ctx)) := by
  refine ⟨?_, ?_, ?_, ?_, ?_⟩
  · intro hdep
    exact nestedTempl_depth_exceeded host _ depth content.toList ctx hdep
  · intro hscan hattr hmem
    unfold getNestedLinkTemplates
    cases hf : ctx.config.maxPreviewDepth + 1 - depth with
    | zero => rfl
    | succ n =>
      unfold nestedTempl
      rw [hscan]
      unfold nestedLoop
      rw [hattr]
      simp only [List.contains_nil, Bool.false_or]
      rw [if_pos (by simpa using hmem)]
      rfl
  · intro hattr hmem
    conv_lhs => unfold nestedLoop
    rw [hattr]
    simp only
    rw [if_pos (by simp [hmem])]
  · intro hscan hattr hmem hdep hsec
    unfold getNestedLinkTemplates
    cases hf : ctx.config.maxPreviewDepth + 1 - depth with
    | zero => rfl
    | succ n =>
      unfold nestedTempl
      rw [hscan]
      unfold nestedLoop
      rw [hattr]
      simp only [List.contains_nil, Bool.false_or]
      rw [if_neg (by simpa using hmem), if_neg hdep, hsec]
      rfl
  · intro hscan hattr hmem hdep hsec
    unfold getNestedLinkTemplates
    cases hf : ctx.config.maxPreviewDepth + 1 - depth with
    | zero => omega
    | succ n =>
      conv_lhs => unfold nestedTempl
      rw [hscan]
      unfold nestedLoop
      rw [hattr]
      simp only [List.contains_nil, Bool.false_or]
      rw [if_neg (by simpa using hmem), if_neg hdep, hsec]
      simp only
      have hadd : setAdd ctx.expandedIds targetId = ctx.expandedIds ++ [targetId] := by
        unfold setAdd; rw [if_neg hmem]
      have hst := nestedTempl_state host n (depth + 1)
        (weaveRenderSectionBody host sec.fullMarkdown
          ctx.config.maxExpandedCharsPerRef).toList
        { ctx with expandedIds := setAdd ctx.expandedIds targetId }
      rw [show (nestedTempl host n (depth + 1)
            (weaveRenderSectionBody host sec.fullMarkdown
              ctx.config.maxExpandedCharsPerRef).toList
            { ctx with expandedIds := setAdd ctx.expandedIds targetId })
          = ((nestedTempl host n (depth + 1)
              (weaveRenderSectionBody host sec.fullMarkdown
                ctx.config.maxExpandedCharsPerRef).toList
              { ctx with expandedIds := setAdd ctx.expandedIds targetId }).1,
             { ctx with expandedIds := setAdd ctx.expandedIds targetId }) from
        Prod.ext rfl hst]
      have hn : ctx.config.maxPreviewDepth + 1 - (depth + 1) = n := by omega
      rw [hn, hadd]
      have hdel2 : setDelete (ctx.expandedIds ++ [targetId]) targetId = ctx.expandedIds :=
        hadd ▸ setDelete_setAdd ctx.expandedIds targetId hmem
      rw [hdel2]
      unfold nestedLoop
      simp

/-- Witness for C7: the `B` trigger inside `A`'s rendered body produces `B`'s
template followed by the deeper template for `C`, while a `B` already on the
active path or already processed is skipped. -/
theorem C7_nested_template_generator_witness :
    (getNestedLinkTemplates hostDemo htmlA 3 (createRenderContext cfgDepth2)
       = ("", createRenderContext cfgDepth2)) ∧
    (getNestedLinkTemplates hostDemo htmlA 1
        { createRenderContext cfgDepth2 with expandedIds := ["B"] }
       = ("", { createRenderContext cfgDepth2 with expandedIds := ["B"] })) ∧
    (nestedLoop hostDemo (fun c x => nestedTempl hostDemo 1 2 c x) 1 [spanB, spanB] ["B"]
        (createRenderContext cfgDepth2) ""
       = nestedLoop hostDemo (fun c x => nestedTempl hostDemo 1 2 c x) 1 [spanB] ["B"]
           (createRenderContext cfgDepth2) "") ∧
    (getNestedLinkTemplates hostDemo htmlA 1 (createRenderContext cfgDepth2)
       = ("<template class=\"" ++ templateClassFor spanB ++ "\" data-for=\"B\">"
            ++ weaveRenderSectionBody hostDemo secB.fullMarkdown
                 (createRenderContext cfgDepth2).config.maxExpandedCharsPerRef
            ++ "</template>"
            ++ (getNestedLinkTemplates hostDemo
                  (weaveRenderSectionBody hostDemo secB.fullMarkdown
                    (createRenderContext cfgDepth2).config.maxExpandedCharsPerRef)
                  2
                  { createRenderContext cfgDepth2 with expandedIds := [] ++ ["B"] }).1,
          createRenderContext cfgDepth2)) :=
  ⟨(C7_nested_template_generator hostDemo htmlA 3 (createRenderContext cfgDepth2) spanB "B"
      secB (fun c x => nestedTempl hostDemo 1 2 c x) [] [] "").1 (by decide),
   (C7_nested_template_generator hostDemo htmlA 1
      { createRenderContext cfgDepth2 with expandedIds := ["B"] } spanB "B"
      secB (fun c x => nestedTempl hostDemo 1 2 c x) [] [] "").2.1
      (by decide) (by decide) (by decide),
   (C7_nested_template_generator hostDemo htmlA 1 (createRenderContext cfgDepth2) spanB "B"
      secB (fun c x => nestedTempl hostDemo 1 2 c x) [spanB] ["B"] "").2.2.1
      (by decide) (by decide),
   (C7_nested_template_generator hostDemo htmlA 1 (createRenderContext cfgDepth2) spanB "B"
      secB (fun c x => nestedTempl hostDemo 1 2 c x) [] [] "").2.2.2.2
      (by decide) (by decide) (by decide) (by decide) (by rfl)⟩

/-- Post-state of an inline-mode (default) resolve: only `expandedRefs`
changes, whatever the body render produced. -/
theorem renderNodeLink_inline_post (host : Host) (parsed : ParsedNodeUrl) (lt : String)
    (s : ContentSection) (depth : Nat) (ctx : RenderContext)
    (hd : parsed.display.getD .inline = .inline)
    (h1 : parsed.id ∉ ctx.expandedIds)
    (h2 : ¬ depth > ctx.config.maxPreviewDepth)
    (h3 : ¬ ctx.expandedRefs ≥ ctx.config.maxExpandedRefsPerDoc) :
    (renderNodeLink host parsed lt (some s) depth ctx).2
      = { ctx with expandedRefs := ctx.expandedRefs + 1 } := by
  rw [renderNodeLink_resolve host parsed lt s depth ctx h1 h2 h3]
  simp only [hd]
  rw [renderInlineExpansion_state]

/-- C8: the render pipeline never propagates a failure out of an individual
embedded block.  A raising parse pipeline is caught inside
`renderWeaveContent` and replaced by the inline error fragment for just that
block; a reference whose target body fails to render still produces its full
display-mode fragment with the error fragment as embedded content, the
context advances exactly as for a successful embed, and the rest of the token
stream renders from that same state — so one broken embed never prevents the
rest of the document from rendering.  (In this embedding every render
function is total, mirroring that `render` itself never throws.) -/
theorem C8_error_containment (host : Host) (parsed : ParsedNodeUrl) (lt e md : String)
    (s : ContentSection) (depth : Nat) (ctx : RenderContext) (mc : Nat)
    (toks : List Tok) :
    (host.coreRender md = .error e → renderWeaveContent host md mc = errorRenderingDiv) ∧
    (parsed.display = none →
     parsed.id ∉ ctx.expandedIds → ¬ depth > ctx.config.maxPreviewDepth →
     ¬ ctx.expandedRefs ≥ ctx.config.maxExpandedRefsPerDoc →
     host.coreRender s.fullMarkdown = .error e →
     "---".toList.isPrefixOf (s.fullMarkdown.toList.dropWhile isJsSpace) = true →
     ¬ s.fullMarkdown.length > ctx.config.maxExpandedCharsPerRef →
       renderNodeLink host parsed lt (some s) depth ctx
         = renderInlineExpansion host (escapeHtml parsed.id) lt
             (if s.title = "" then s.id else s.title) errorRenderingDiv
             ("#" ++ escapeHtml parsed.id)
             { ctx with expandedRefs := ctx.expandedRefs + 1 } depth) ∧
    (parsed.display = none → host.getSectionById parsed.id = some s →
     parsed.id ∉ ctx.expandedIds →
     ¬ ctx.expandedRefs ≥ ctx.config.maxExpandedRefsPerDoc →
       renderTokens host (Tok.nodeLink parsed lt :: toks) ctx
         = ((renderNodeLink host parsed (if lt = "" then parsed.id else lt) (some s) 0
               ctx).1
             ++ (renderTokens host toks
                  { ctx with expandedRefs := ctx.expandedRefs + 1 }).1,
            (renderTokens host toks
              { ctx with expandedRefs := ctx.expandedRefs + 1 }).2)) := by
  refine ⟨?_, ?_, ?_⟩
  · intro herr
    unfold renderWeaveContent
    rw [herr]
  · intro hdisp h1 h2 h3 herr hfm hlen
    rw [renderNodeLink_resolve host parsed lt s depth ctx h1 h2 h3]
    have hd : parsed.display.getD .inline = .inline := by rw [hdisp]; rfl
    simp only [hd]
    have hcontent : renderSectionBody host s (depth + 1)
        ({ ctx with expandedRefs := ctx.expandedRefs + 1,
                    expandedIds := ctx.expandedIds ++ [parsed.id] })
        (DisplayType.inline == DisplayType.inline) = errorRenderingDiv := by
      unfold renderSectionBody
      rw [if_neg hlen]
      unfold weaveRenderSectionBody
      rw [hfm]
      simp only [Bool.not_true, Bool.false_eq_true, if_false]
      unfold renderWeaveContent
      rw [herr]
    rw [hcontent]
  · intro hdisp hsec h1 h3
    have hd : parsed.display.getD .inline = .inline := by rw [hdisp]; rfl
    have h2 : ¬ (0 : Nat) > ctx.config.maxPreviewDepth := by omega
    conv_lhs => unfold renderTokens
    simp only [renderTok, hsec]
    rw [renderNodeLink_inline_post host parsed (if lt = "" then parsed.id else lt) s 0 ctx
      hd h1 h2 h3]

/-- Witness for C8: a host whose pipeline raises on every section still
renders the reference to `D` as a full inline fragment embedding the error
marker, and a following text token renders unaffected. -/
theorem C8_error_containment_witness :
    (renderWeaveContent hostErr secBad.fullMarkdown 100 = errorRenderingDiv) ∧
    (renderNodeLink hostErr { id := "D" } "d" (some secBad) 0 (createRenderContext cfgDepth1)
       = renderInlineExpansion hostErr (escapeHtml "D") "d"
           (if secBad.title = "" then secBad.id else secBad.title) errorRenderingDiv
           ("#" ++ escapeHtml "D")
           { createRenderContext cfgDepth1 with expandedRefs := 1 } 0) ∧
    (renderTokens hostErr [Tok.nodeLink { id := "D" } "d", Tok.text "after"]
        (createRenderContext cfgDepth1)
       = ((renderNodeLink hostErr { id := "D" } "d" (some secBad) 0
             (createRenderContext cfgDepth1)).1
           ++ (renderTokens hostErr [Tok.text "after"]
                { createRenderContext cfgDepth1 with expandedRefs := 1 }).1,
          (renderTokens hostErr [Tok.text "after"]
            { createRenderContext cfgDepth1 with expandedRefs := 1 }).2)) := by
  refine ⟨?_, ?_, ?_⟩
  · exact (C8_error_containment hostErr { id := "D" } "d" "boom" secBad.fullMarkdown secBad 0
      (createRenderContext cfgDepth1) 100 []).1 (by rfl)
  · have := (C8_error_containment hostErr { id := "D" } "d" "boom" secBad.fullMarkdown secBad
      0 (createRenderContext cfgDepth1) 100 []).2.1 rfl (by decide) (by decide) (by decide)
      (by rfl) (by decide) (by decide)
    simpa using this
  · have := (C8_error_containment hostErr { id := "D" } "d" "boom" secBad.fullMarkdown secBad
      0 (createRenderContext cfgDepth1) 100 [Tok.text "after"]).2.2 rfl (by rfl)
      (by decide) (by decide)
    simpa using this

/-- C9: for every reference whose link text is empty or whitespace-only, the
four trigger-bearing display strategies render an icon marker in place of the
link text (plus/minus for inline and stretch, the info icon for overlay and
panel), margin mode omits the inline anchor entirely while still emitting the
adjacent margin-positioned body; with non-whitespace link text each of the
four triggers (inline, stretch, overlay, panel) renders the escaped text and
margin mode includes its anchor. -/
theorem C9_anchor_only (host : Host) (tid lt ti c fp : String) (ctx : RenderContext)
    (d : Nat) :
    (isAnchorOnly lt = true →
       (renderInlineExpansion host tid lt ti c fp ctx d).1
         = "<span class=\"weave-inline-anchor\" data-weave=\"1\" data-target=\"" ++ tid
           ++ "\" tabindex=\"0\" role=\"button\" title=\"Expand " ++ escapeHtml ti ++ "\">"
           ++ ICON_PLUS ++ ICON_MINUS ++ "</span>"
           ++ ("<template class=\"weave-inline-content-template\" data-for=\"" ++ tid
               ++ "\">" ++ c ++ "</template>")
           ++ (getNestedLinkTemplates host c (d + 1) ctx).1) ∧
    (isAnchorOnly lt = true →
       (renderStretchExpansion host tid lt ti c fp ctx d).1
         = "<span class=\"weave-stretch-anchor\" data-weave=\"1\" data-target=\"" ++ tid
           ++ "\" tabindex=\"0\" role=\"button\" title=\"Expand " ++ escapeHtml ti ++ "\">"
           ++ ICON_PLUS ++ ICON_MINUS ++ "</span>"
           ++ ("<template class=\"weave-stretch-content-template\" data-for=\"" ++ tid
               ++ "\">" ++ c ++ "</template>")
           ++ (getNestedLinkTemplates host c (d + 1) ctx).1) ∧
    (isAnchorOnly lt = true →
       (renderOverlayExpansion host tid lt ti c fp ctx d).1
         = "<span class=\"weave-overlay-anchor\" data-weave=\"1\" data-target=\"" ++ tid
           ++ "\" tabindex=\"0\" role=\"button\" data-display=\"overlay\" title=\"View "
           ++ escapeHtml ti ++ "\">" ++ ICON_INFO ++ "</span>"
           ++ ("<template class=\"weave-overlay-content-template\" data-for=\"" ++ tid
               ++ "\">" ++ c ++ "</template>")
           ++ (getNestedLinkTemplates host c (d + 1) ctx).1) ∧
    (isAnchorOnly lt = true →
       (renderPanelExpansion host tid lt ti c fp ctx d).1
         = "<span class=\"weave-panel-anchor\" data-weave=\"1\" data-target=\"" ++ tid
           ++ "\" tabindex=\"0\" role=\"button\" title=\"Open panel: " ++ escapeHtml ti
           ++ "\">" ++ ICON_INFO ++ "</span>"
           ++ ("<template class=\"weave-panel-content-template\" data-for=\"" ++ tid
               ++ "\">" ++ c ++ "</template>")
           ++ (getNestedLinkTemplates host c (d + 1) ctx).1) ∧
    (isAnchorOnly lt = false →
       (renderInlineExpansion host tid lt ti c fp ctx d).1
         = "<span class=\"weave-inline-trigger\" data-weave=\"1\" data-target=\"" ++ tid
           ++ "\" tabindex=\"0\" role=\"button\" aria-expanded=\"false\">" ++ escapeHtml lt
           ++ "</span>"
           ++ ("<template class=\"weave-inline-content-template\" data-for=\"" ++ tid
               ++ "\">" ++ c ++ "</template>")
           ++ (getNestedLinkTemplates host c (d + 1) ctx).1) ∧
    (isAnchorOnly lt = false →
       (renderStretchExpansion host tid lt ti c fp ctx d).1
         = "<span class=\"weave-stretch-trigger\" data-weave=\"1\" data-target=\"" ++ tid
           ++ "\" tabindex=\"0\" role=\"button\" aria-expanded=\"false\">" ++ escapeHtml lt
           ++ "</span>"
           ++ ("<template class=\"weave-stretch-content-template\" data-for=\"" ++ tid
               ++ "\">" ++ c ++ "</template>")
           ++ (getNestedLinkTemplates host c (d + 1) ctx).1) ∧
    (isAnchorOnly lt = false →
       (renderOverlayExpansion host tid lt ti c fp ctx d).1
         = "<span class=\"weave-node-link\" data-weave=\"1\" data-target=\"" ++ tid
           ++ "\" tabindex=\"0\" role=\"button\" data-display=\"overlay\">" ++ escapeHtml lt
           ++ "</span>"
           ++ ("<template class=\"weave-overlay-content-template\" data-for=\"" ++ tid
               ++ "\">" ++ c ++ "</template>")
           ++ (getNestedLinkTemplates host c (d + 1) ctx).1) ∧
    (isAnchorOnly lt = false →
       (renderPanelExpansion host tid lt ti c fp ctx d).1
         = "<span class=\"weave-panel-trigger\" data-weave=\"1\" data-target=\"" ++ tid
           ++ "\" tabindex=\"0\" role=\"button\" aria-expanded=\"false\">" ++ escapeHtml lt
           ++ "</span>"
           ++ ("<template class=\"weave-panel-content-template\" data-for=\"" ++ tid
               ++ "\">" ++ c ++ "</template>")
           ++ (getNestedLinkTemplates host c (d + 1) ctx).1) ∧
    (isAnchorOnly lt = true →
       renderMarginNote tid lt ti c fp
         = "<span class=\"weave-margin-note-container\" data-weave=\"1\">\n    "
           ++ ""
           ++ "\n    <span class=\"weave-margin-note-body\" data-target=\"" ++ tid
           ++ "\">\n      <span class=\"weave-margin-note-content\">\n        <span class=\"weave-header\">\n          <span class=\"weave-title\">"
           ++ escapeHtml ti ++ "</span>\n          <a class=\"weave-open-link\" href=\""
           ++ escapeHtml fp ++ "\" title=\"Open section\">↗</a>\n        </span>\n        "
           ++ c ++ "\n      </span>\n    </span>\n  </span>") ∧
    (isAnchorOnly lt = false →
       renderMarginNote tid lt ti c fp
         = "<span class=\"weave-margin-note-container\" data-weave=\"1\">\n    "
           ++ marginAnchorSpan tid lt
           ++ "\n    <span class=\"weave-margin-note-body\" data-target=\"" ++ tid
           ++ "\">\n      <span class=\"weave-margin-note-content\">\n        <span class=\"weave-header\">\n          <span class=\"weave-title\">"
           ++ escapeHtml ti ++ "</span>\n          <a class=\"weave-open-link\" href=\""
           ++ escapeHtml fp ++ "\" title=\"Open section\">↗</a>\n        </span>\n        "
           ++ c ++ "\n      </span>\n    </span>\n  </span>") := by
  refine ⟨?_, ?_, ?_, ?_, ?_, ?_, ?_, ?_, ?_, ?_⟩
  · intro h
    unfold renderInlineExpansion
    rw [getNestedLinkTemplates_eq, h]
    rfl
  · intro h
    unfold renderStretchExpansion
    rw [getNestedLinkTemplates_eq, h]
    rfl
  · intro h
    unfold renderOverlayExpansion
    rw [getNestedLinkTemplates_eq, h]
    rfl
  · intro h
    unfold renderPanelExpansion
    rw [getNestedLinkTemplates_eq, h]
    rfl
  · intro h
    unfold renderInlineExpansion
    rw [getNestedLinkTemplates_eq, h]
    rfl
  · intro h
    unfold renderStretchExpansion
    rw [getNestedLinkTemplates_eq, h]
    rfl
  · intro h
    unfold renderOverlayExpansion
    rw [getNestedLinkTemplates_eq, h]
    rfl
  · intro h
    unfold renderPanelExpansion
    rw [getNestedLinkTemplates_eq, h]
    rfl
  · intro h
    unfold renderMarginNote
    rw [h]
    rfl
  · intro h
    unfold renderMarginNote
    rw [h]
    rfl

/-- Witness for C9: whitespace-only link text yields the icon forms and the
anchorless margin note (the concrete fragments contain the icons and omit the
anchor class), non-blank text yields the text trigger. -/
theorem C9_anchor_only_witness :
    ((renderInlineExpansion hostDemo "A" "  " "T" "cc" "#A"
        (createRenderContext cfgDepth1) 0).1
       = "<span class=\"weave-inline-anchor\" data-weave=\"1\" data-target=\"A\" tabindex=\"0\" role=\"button\" title=\"Expand T\">"
         ++ ICON_PLUS ++ ICON_MINUS ++ "</span>"
         ++ ("<template class=\"weave-inline-content-template\" data-for=\"A\">cc</template>")
         ++ (getNestedLinkTemplates hostDemo "cc" 1 (createRenderContext cfgDepth1)).1) ∧
    ((renderInlineExpansion hostDemo "A" "go" "T" "cc" "#A"
        (createRenderContext cfgDepth1) 0).1
       = "<span class=\"weave-inline-trigger\" data-weave=\"1\" data-target=\"A\" tabindex=\"0\" role=\"button\" aria-expanded=\"false\">go</span>"
         ++ ("<template class=\"weave-inline-content-template\" data-for=\"A\">cc</template>")
         ++ (getNestedLinkTemplates hostDemo "cc" 1 (createRenderContext cfgDepth1)).1) ∧
    ((renderStretchExpansion hostDemo "A" "go" "T" "cc" "#A"
        (createRenderContext cfgDepth1) 0).1
       = "<span class=\"weave-stretch-trigger\" data-weave=\"1\" data-target=\"A\" tabindex=\"0\" role=\"button\" aria-expanded=\"false\">go</span>"
         ++ ("<template class=\"weave-stretch-content-template\" data-for=\"A\">cc</template>")
         ++ (getNestedLinkTemplates hostDemo "cc" 1 (createRenderContext cfgDepth1)).1) ∧
    ((renderOverlayExpansion hostDemo "A" "go" "T" "cc" "#A"
        (createRenderContext cfgDepth1) 0).1
       = "<span class=\"weave-node-link\" data-weave=\"1\" data-target=\"A\" tabindex=\"0\" role=\"button\" data-display=\"overlay\">go</span>"
         ++ ("<template class=\"weave-overlay-content-template\" data-for=\"A\">cc</template>")
         ++ (getNestedLinkTemplates hostDemo "cc" 1 (createRenderContext cfgDepth1)).1) ∧
    ((renderPanelExpansion hostDemo "A" "go" "T" "cc" "#A"
        (createRenderContext cfgDepth1) 0).1
       = "<span class=\"weave-panel-trigger\" data-weave=\"1\" data-target=\"A\" tabindex=\"0\" role=\"button\" aria-expanded=\"false\">go</span>"
         ++ ("<template class=\"weave-panel-content-template\" data-for=\"A\">cc</template>")
         ++ (getNestedLinkTemplates hostDemo "cc" 1 (createRenderContext cfgDepth1)).1) ∧
    (strContains (renderMarginNote "A" " " "T" "cc" "#A") "weave-margin-note-anchor"
       = false) ∧
    (strContains (renderMarginNote "A" " " "T" "cc" "#A") "weave-margin-note-body"
       = true) ∧
    (strContains (renderMarginNote "A" "go" "T" "cc" "#A") "weave-margin-note-anchor"
       = true) := by
  refine ⟨?_, ?_, ?_, ?_, ?_, by decide, by decide, by decide⟩
  · have := (C9_anchor_only hostDemo "A" "  " "T" "cc" "#A"
      (createRenderContext cfgDepth1) 0).1 (by decide)
    simpa using this
  · have := (C9_anchor_only hostDemo "A" "go" "T" "cc" "#A"
      (createRenderContext cfgDepth1) 0).2.2.2.2.1 (by decide)
    simpa using this
  · have := (C9_anchor_only hostDemo "A" "go" "T" "cc" "#A"
      (createRenderContext cfgDepth1) 0).2.2.2.2.2.1 (by decide)
    simpa using this
  · have := (C9_anchor_only hostDemo "A" "go" "T" "cc" "#A"
      (createRenderContext cfgDepth1) 0).2.2.2.2.2.2.1 (by decide)
    simpa using this
  · have := (C9_anchor_only hostDemo "A" "go" "T" "cc" "#A"
      (createRenderContext cfgDepth1) 0).2.2.2.2.2.2.2.1 (by decide)
    simpa using this

/-- C10: generating nested templates never consumes the per-document
reference budget: `getNestedLinkTemplates` returns the context exactly as it
received it (`expandedRefs` untouched, each id it temporarily adds to the
cycle-guard set removed again), only `renderNodeLink`'s resolve branch
increments `expandedRefs`, and a document may therefore embed template
content for more targets than `maxExpandedRefsPerDoc` allows: with a budget
of one, the demo chain's single resolved reference embeds templates for two
further targets while the counter stays at the ceiling. -/
theorem C10_templates_cost_no_budget (host : Host) (content : String) (depth : Nat)
    (ctx : RenderContext) (parsed : ParsedNodeUrl) (lt : String) (s : ContentSection) :
    ((getNestedLinkTemplates host content depth ctx).2 = ctx) ∧
    ((getNestedLinkTemplates host content depth ctx).2.expandedRefs = ctx.expandedRefs) ∧
    ((getNestedLinkTemplates host content depth ctx).2.expandedIds = ctx.expandedIds) ∧
    (parsed.id ∉ ctx.expandedIds → ¬ depth > ctx.config.maxPreviewDepth →
     ¬ ctx.expandedRefs ≥ ctx.config.maxExpandedRefsPerDoc →
       (renderNodeLink host parsed lt (some s) depth ctx).2.expandedRefs
         = ctx.expandedRefs + 1) ∧
    ((renderTokens hostDemo [Tok.nodeLink { id := "A" } "lnkA"]
        (createRenderContext cfgBudget1)).2.expandedRefs
       = cfgBudget1.maxExpandedRefsPerDoc) ∧
    (strContains chainOutBudget "data-for=\"B\"" = true) ∧
    (strContains chainOutBudget "data-for=\"C\"" = true) := by
  refine ⟨getNestedLinkTemplates_state host content depth ctx,
    by rw [getNestedLinkTemplates_state], by rw [getNestedLinkTemplates_state],
    renderNodeLink_refs_resolve host parsed lt s depth ctx,
    by decide, by decide, by decide⟩

/-- Witness for C10: the resolve-branch hypothesis instance, discharged on the
demo chain. -/
theorem C10_templates_cost_no_budget_witness :
    (renderNodeLink hostDemo { id := "A" } "x" (some secA) 0
        (createRenderContext cfgBudget1)).2.expandedRefs = 0 + 1 :=
  (C10_templates_cost_no_budget hostDemo htmlA 1 (createRenderContext cfgBudget1)
      { id := "A" } "x" secA).2.2.2.1 (by decide) (by decide) (by decide)

end Weave
